import Mathlib

/-!
# Nebula transport layer (`src/v0.01`): embedding and verified properties

The C++ classes of `tcp.hpp`, `udp.hpp` and `sctp.hpp` call into the operating
system; `http.hpp` builds a request text on top of them.  The embedding makes
the interaction with the operating system explicit:

* a `World` holds, for every kind of system call, the stream of answers the
  operating system is going to give (`World.select 0` is the answer to the next
  `select`, and so on) together with the `trace` of the calls issued so far;
* every system call is a function `Sys.* : World → … → answer × World` that
  takes the head of the matching stream, advances it, and appends one `Event`
  to the trace;
* every member function becomes a function on the object's fields and the
  `World`.

Machine integers: `int` and `ssize_t` results are `Int`; `size_t` counters are
`Nat` and the conversion to the returned `int` is `toInt32`, reduction modulo
`2 ^ 32` into the signed range; `time_out` (`unsigned long long`) is `Nat`.

A library call that throws (`result.reserve` in `TcpBase::recv_data`,
`substr` in the HTTP header block) makes the function's result `none`.

The two transfer `while` loops are defined by well-founded recursion on the
number of bytes still to transfer, which every iteration that continues
decreases, and the header loop of `http.hpp` on the distance from `pos` to the
end of the string: they are total functions, without fuel.
-/

namespace fmx

/-- One `char` of a `std::string` or of a socket buffer. -/
abbrev Byte := UInt8

/-- Raw bytes of a `struct sockaddr`. -/
abbrev SockAddr := List Byte

/-- The value of `static_cast<int>(x)` (or of the implicit conversion to `int`)
for a `size_t` or `ssize_t` value `x`, with a 32-bit two's complement `int`. -/
def toInt32 (x : Int) : Int := (x + 2 ^ 31) % 2 ^ 32 - 2 ^ 31

/-- Linux value of `EINPROGRESS`. -/
def EINPROGRESS : Int := 115

/-- Linux value of `O_NONBLOCK` (octal 04000). -/
def O_NONBLOCK : Nat := 2048

/-- Linux value of `AF_INET`. -/
def AF_INET : Nat := 2

/-- Linux value of `AF_INET6`. -/
def AF_INET6 : Nat := 10

/-- The expression `flags | O_NONBLOCK` on a two's complement `int`. -/
def setNonblock (flags : Int) : Int := Int.lor flags (O_NONBLOCK : Int)

/-- One call into the operating system (or the C library), with the arguments
the program passed and the answer it got. -/
inductive Event where
  | socket (domain : Nat) (ret : Int)
  | inet_pton (af : Nat) (ip : String) (ret : Int)
  | connect (fd : Int) (ret : Int) (errno : Int)
  | fcntl_getfl (fd : Int) (ret : Int)
  | fcntl_setfl (fd : Int) (flags : Int)
  | getsockopt_so_error (fd : Int) (stored : Option Int)
  | select_read (fd : Int) (tv_sec : Nat) (tv_usec : Nat) (ret : Int)
  | select_write (fd : Int) (tv_sec : Nat) (tv_usec : Nat) (ret : Int)
  | send (fd : Int) (buf : List Byte) (ret : Int)
  | recv (fd : Int) (len : Nat) (ret : Int) (data : List Byte)
  | sendto (fd : Int) (buf : List Byte) (dest : SockAddr) (ret : Int)
  | recvfrom (fd : Int) (len : Nat) (ret : Int) (data : List Byte) (src : Option SockAddr)
  | sctp_sendmsg (fd : Int) (buf : List Byte) (dest : SockAddr) (stream_no : Int) (ret : Int)
  | sctp_recvmsg (fd : Int) (len : Nat) (ret : Int) (data : List Byte) (src : Option SockAddr)
      (sinfo_stream : Int)
  | close (fd : Int)
  deriving DecidableEq, Repr

/-- Answer of the operating system to one receiving call (`recv`, `recvfrom`,
`sctp_recvmsg`): the return value, the bytes it stored at the start of the
buffer, the source address it stored (`none`: left untouched) and the stream
number it reported. -/
structure ReadAnswer where
  ret : Int
  data : List Byte
  src : Option SockAddr := none
  sinfo_stream : Int := 0

/-- The operating system as the program sees it: the answers still to come,
one stream per kind of call, and the calls issued so far. -/
structure World where
  /-- Return values of the coming `socket` calls. -/
  socket : Nat → Int
  /-- Return values of the coming `inet_pton` calls. -/
  inet_pton : Nat → Int
  /-- Return value and `errno` of the coming `connect` calls. -/
  connect : Nat → Int × Int
  /-- Return values of the coming `fcntl(F_GETFL)` calls. -/
  getfl : Nat → Int
  /-- Values the coming `getsockopt(SO_ERROR)` calls store (`none`: nothing stored). -/
  so_error : Nat → Option Int
  /-- Return values of the coming `select` calls. -/
  select : Nat → Int
  /-- Return values of the coming sending calls, as a function of the requested length. -/
  write : Nat → Nat → Int
  /-- Answers of the coming receiving calls. -/
  read : Nat → ReadAnswer
  /-- The calls issued so far, oldest first. -/
  trace : List Event
  /-- Whether the allocator grants the coming requests for a string buffer, as a
  function of the requested capacity (`false`: `std::bad_alloc`). -/
  alloc : Nat → Nat → Bool := fun _ _ => true

/-- A stream without its first element. -/
def next {α : Type} (s : Nat → α) : Nat → α := fun i => s (i + 1)

namespace Sys

/-- The call `socket(domain, …)`. -/
def socket (w : World) (domain : Nat) : Int × World :=
  (w.socket 0, { w with socket := next w.socket, trace := w.trace ++ [Event.socket domain (w.socket 0)] })

/-- The call `inet_pton(af, ip, …)`. -/
def inet_pton (w : World) (af : Nat) (ip : String) : Int × World :=
  (w.inet_pton 0,
    { w with inet_pton := next w.inet_pton,
             trace := w.trace ++ [Event.inet_pton af ip (w.inet_pton 0)] })

/-- The call `connect(fd, …)`: return value and the `errno` it leaves. -/
def connect (w : World) (fd : Int) : (Int × Int) × World :=
  (w.connect 0,
    { w with connect := next w.connect,
             trace := w.trace ++ [Event.connect fd (w.connect 0).1 (w.connect 0).2] })

/-- The call `fcntl(fd, F_GETFL, 0)`. -/
def fcntl_getfl (w : World) (fd : Int) : Int × World :=
  (w.getfl 0, { w with getfl := next w.getfl, trace := w.trace ++ [Event.fcntl_getfl fd (w.getfl 0)] })

/-- The call `fcntl(fd, F_SETFL, flags)`; the program ignores its result. -/
def fcntl_setfl (w : World) (fd : Int) (flags : Int) : World :=
  { w with trace := w.trace ++ [Event.fcntl_setfl fd flags] }

/-- The call `getsockopt(fd, SOL_SOCKET, SO_ERROR, &so_error, &len)` on a
variable holding `so_error`: the value of the variable afterwards. -/
def getsockopt_so_error (w : World) (fd : Int) (so_error : Int) : Int × World :=
  ((w.so_error 0).getD so_error,
    { w with so_error := next w.so_error,
             trace := w.trace ++ [Event.getsockopt_so_error fd (w.so_error 0)] })

/-- The call `select(fd + 1, &set, nullptr, nullptr, &tv)` with `fd` in the read set. -/
def select_read (w : World) (fd : Int) (tv_sec tv_usec : Nat) : Int × World :=
  (w.select 0,
    { w with select := next w.select,
             trace := w.trace ++ [Event.select_read fd tv_sec tv_usec (w.select 0)] })

/-- The call `select(fd + 1, nullptr, &set, nullptr, &tv)` with `fd` in the write set. -/
def select_write (w : World) (fd : Int) (tv_sec tv_usec : Nat) : Int × World :=
  (w.select 0,
    { w with select := next w.select,
             trace := w.trace ++ [Event.select_write fd tv_sec tv_usec (w.select 0)] })

/-- The call `send(fd, buf, len, 0)` where `buf` holds the `len` bytes offered. -/
def send (w : World) (fd : Int) (buf : List Byte) : Int × World :=
  (w.write 0 buf.length,
    { w with write := next w.write, trace := w.trace ++ [Event.send fd buf (w.write 0 buf.length)] })

/-- The call `recv(fd, buffer, len, 0)`. -/
def recv (w : World) (fd : Int) (len : Nat) : ReadAnswer × World :=
  (w.read 0,
    { w with read := next w.read,
             trace := w.trace ++ [Event.recv fd len (w.read 0).ret (w.read 0).data] })

/-- The call `sendto(fd, buf, len, 0, dest_addr, addr_len)`. -/
def sendto (w : World) (fd : Int) (buf : List Byte) (dest : SockAddr) : Int × World :=
  (w.write 0 buf.length,
    { w with write := next w.write,
             trace := w.trace ++ [Event.sendto fd buf dest (w.write 0 buf.length)] })

/-- The call `recvfrom(fd, buffer, len, 0, src_addr, addr_len)`. -/
def recvfrom (w : World) (fd : Int) (len : Nat) : ReadAnswer × World :=
  (w.read 0,
    { w with read := next w.read,
             trace := w.trace ++ [Event.recvfrom fd len (w.read 0).ret (w.read 0).data (w.read 0).src] })

/-- The call `sctp_sendmsg(fd, buf, len, dest_addr, addr_len, 0, 0, stream_no, 0, 0)`. -/
def sctp_sendmsg (w : World) (fd : Int) (buf : List Byte) (dest : SockAddr) (stream_no : Int) :
    Int × World :=
  (w.write 0 buf.length,
    { w with write := next w.write,
             trace := w.trace ++ [Event.sctp_sendmsg fd buf dest stream_no (w.write 0 buf.length)] })

/-- The call `sctp_recvmsg(fd, buffer, len, src_addr, addr_len, &sri, &msg_flags)`. -/
def sctp_recvmsg (w : World) (fd : Int) (len : Nat) : ReadAnswer × World :=
  (w.read 0,
    { w with read := next w.read,
             trace := w.trace ++
               [Event.sctp_recvmsg fd len (w.read 0).ret (w.read 0).data (w.read 0).src
                 (w.read 0).sinfo_stream] })

/-- The call `close(fd)`; the program ignores its result. -/
def close (w : World) (fd : Int) : World :=
  { w with trace := w.trace ++ [Event.close fd] }

end Sys

/-- `std::string::max_size()`, the 64-bit libstdc++ value `(PTRDIFF_MAX - 1) / 2`. -/
def max_size : Nat := 2 ^ 62 - 1

/-- `result.reserve(length)` on the string just cleared: whether it returns
normally, and the world afterwards.  It throws `std::length_error` when
`length > max_size()` and `std::bad_alloc` when the allocator refuses the
buffer; it issues no system call of its own. -/
def string_reserve (w : World) (length : Nat) : Bool × World :=
  (decide (length ≤ max_size) && w.alloc 0 length, { w with alloc := next w.alloc })

/-- The events issued between world `w` and the later world `w'`. -/
def issued (w w' : World) : List Event := w'.trace.drop w.trace.length

/-- The block `if (time_out > 0) { … if (select(…write_set…) <= 0) <leave>; }`
that opens every sending path: the flag says whether the enclosing function
leaves at this point. -/
def wait_writable (socket_fd : Int) (time_out : Nat) (w : World) : Bool × World :=
  if 0 < time_out then
    (decide ((Sys.select_write w socket_fd (time_out / 1000) (time_out % 1000 * 1000)).1 ≤ 0),
      (Sys.select_write w socket_fd (time_out / 1000) (time_out % 1000 * 1000)).2)
  else (false, w)

/-- The block `if (time_out > 0) { … if (select(…read_set…) <= 0) <leave>; }`
that opens every receiving path. -/
def wait_readable (socket_fd : Int) (time_out : Nat) (w : World) : Bool × World :=
  if 0 < time_out then
    (decide ((Sys.select_read w socket_fd (time_out / 1000) (time_out % 1000 * 1000)).1 ≤ 0),
      (Sys.select_read w socket_fd (time_out / 1000) (time_out % 1000 * 1000)).2)
  else (false, w)

/-- `htons` on a little-endian host, on a value already reduced to 16 bits. -/
def htons (x : Nat) : Nat := x % 256 * 256 + x / 256 % 256

/-- A `struct sockaddr_in` / `struct sockaddr_in6` as the transports use it:
family, port in network order, and the text whose binary form `inet_pton`
stored in the address field (`none`: still zero). -/
structure InetAddr where
  family : Nat := 0
  port : Nat := 0
  addr : Option String := none
  deriving DecidableEq, Repr

/-! ## `tcp.hpp` -/

/-- Fields of `class TcpBase`. -/
structure TcpBase where
  socket_fd : Int := -1
  time_out : Nat := 0
  deriving DecidableEq, Repr

/-- What `TcpBase::recv_data` hands back when it returns: the returned `int`
and the string `result`. -/
structure StreamRecv where
  ret : Int
  result : List Byte
  deriving DecidableEq, Repr

namespace TcpBase

/-- `set_timeout(ms)`. -/
def set_timeout (self : TcpBase) (ms : Nat) : TcpBase := { self with time_out := ms }

/-- The `while (total_sent < length)` loop of `send_data`, entered with the
current `total_sent`.  `send` is offered `buf + total_sent` with
`length - total_sent` bytes, that is `data.drop total_sent`.  The counter is a
`Nat`: a `send` that keeps its contract returns at most the length it was
offered, so `total_sent` never passes `length` and the `size_t` cannot wrap. -/
def send_loop (self : TcpBase) (data : List Byte) (total_sent : Nat) (w : World) : Int × World :=
  if total_sent < data.length then
    if (wait_writable self.socket_fd self.time_out w).1 then
      (-1, (wait_writable self.socket_fd self.time_out w).2)
    else
      if (Sys.send (wait_writable self.socket_fd self.time_out w).2 self.socket_fd
            (data.drop total_sent)).1 ≤ 0 then
        (-1, (Sys.send (wait_writable self.socket_fd self.time_out w).2 self.socket_fd
            (data.drop total_sent)).2)
      else
        send_loop self data
          (total_sent + (Sys.send (wait_writable self.socket_fd self.time_out w).2 self.socket_fd
            (data.drop total_sent)).1.toNat)
          (Sys.send (wait_writable self.socket_fd self.time_out w).2 self.socket_fd
            (data.drop total_sent)).2
  else (toInt32 total_sent, w)
termination_by data.length - total_sent
decreasing_by omega

/-- `int send_data(const std::string& data)`. -/
def send_data (self : TcpBase) (data : List Byte) (w : World) : Int × World :=
  send_loop self data 0 w

/-- The `while (total_received < length)` loop of `recv_data`; `break` leaves
with the current `total_received` and `result`.  `result.append(buffer,
received_bytes)` appends the first `received_bytes` bytes the call stored. -/
def recv_loop (self : TcpBase) (length : Nat) (result : List Byte) (total_received : Nat)
    (w : World) : (Nat × List Byte) × World :=
  if total_received < length then
    if (wait_readable self.socket_fd self.time_out w).1 then
      ((total_received, result), (wait_readable self.socket_fd self.time_out w).2)
    else
      if (Sys.recv (wait_readable self.socket_fd self.time_out w).2 self.socket_fd
            (min 4096 (length - total_received))).1.ret ≤ 0 then
        ((total_received, result),
          (Sys.recv (wait_readable self.socket_fd self.time_out w).2 self.socket_fd
            (min 4096 (length - total_received))).2)
      else
        recv_loop self length
          (result ++
            (Sys.recv (wait_readable self.socket_fd self.time_out w).2 self.socket_fd
              (min 4096 (length - total_received))).1.data.take
            (Sys.recv (wait_readable self.socket_fd self.time_out w).2 self.socket_fd
              (min 4096 (length - total_received))).1.ret.toNat)
          (total_received +
            (Sys.recv (wait_readable self.socket_fd self.time_out w).2 self.socket_fd
              (min 4096 (length - total_received))).1.ret.toNat)
          (Sys.recv (wait_readable self.socket_fd self.time_out w).2 self.socket_fd
            (min 4096 (length - total_received))).2
  else ((total_received, result), w)
termination_by length - total_received
decreasing_by omega

/-- `int recv_data(std::string& result, size_t length)`; the argument `result`
is the string's content at the call (`result.clear()` drops it).  The first
component is `none` when `result.reserve(length)` throws, which happens before
any call is issued, and otherwise the returned `int` and the final `result`. -/
def recv_data (self : TcpBase) (_result : List Byte) (length : Nat) (w : World) :
    Option StreamRecv × World :=
  if (string_reserve w length).1 then
    (some ⟨toInt32 (recv_loop self length [] 0 (string_reserve w length).2).1.1,
        (recv_loop self length [] 0 (string_reserve w length).2).1.2⟩,
      (recv_loop self length [] 0 (string_reserve w length).2).2)
  else (none, (string_reserve w length).2)

/-- `void close_connection()`. -/
def close_connection (self : TcpBase) (w : World) : TcpBase × World :=
  ({ self with socket_fd := -1 }, Sys.close w self.socket_fd)

/-- The destructor `~TcpBase()`. -/
def destructor (self : TcpBase) (w : World) : World :=
  if 0 ≤ self.socket_fd then (close_connection self w).2 else w

end TcpBase

/-- Fields of `class TcpIPv4`. -/
structure TcpIPv4 extends TcpBase where
  server_addr : InetAddr := {}
  deriving DecidableEq, Repr

namespace TcpIPv4

/-- `int initTcp()`. -/
def initTcp (self : TcpIPv4) (w : World) : Int × TcpIPv4 × World :=
  (if (Sys.socket w AF_INET).1 < 0 then -1 else 0,
    { self with socket_fd := (Sys.socket w AF_INET).1 }, (Sys.socket w AF_INET).2)

/-- `int set_address(const char* ip, int port)`. -/
def set_address (self : TcpIPv4) (ip : String) (port : Int) (w : World) : Int × TcpIPv4 × World :=
  if (Sys.inet_pton w AF_INET ip).1 ≤ 0 then
    (-1, { self with server_addr := { self.server_addr with
              family := AF_INET, port := htons (port % 65536).toNat } },
      Sys.close (Sys.inet_pton w AF_INET ip).2 self.socket_fd)
  else
    (0, { self with server_addr := { family := AF_INET, port := htons (port % 65536).toNat,
                                      addr := some ip } },
      (Sys.inet_pton w AF_INET ip).2)

/-- `int connect_to_server()`. -/
def connect_to_server (self : TcpIPv4) (w : World) : Int × World :=
  if self.time_out = 0 then
    let c := Sys.connect w self.socket_fd
    if c.1.1 < 0 then (-1, Sys.close c.2 self.socket_fd) else (0, c.2)
  else
    let f := Sys.fcntl_getfl w self.socket_fd
    let c := Sys.connect (Sys.fcntl_setfl f.2 self.socket_fd (setNonblock f.1)) self.socket_fd
    if c.1.1 = 0 then (0, Sys.fcntl_setfl c.2 self.socket_fd f.1)
    else if c.1.2 ≠ EINPROGRESS then (-1, Sys.close c.2 self.socket_fd)
    else
      let s := Sys.select_write c.2 self.socket_fd (self.time_out / 1000)
        (self.time_out % 1000 * 1000)
      if s.1 ≤ 0 then (-1, Sys.close s.2 self.socket_fd)
      else
        let g := Sys.getsockopt_so_error s.2 self.socket_fd 0
        if g.1 ≠ 0 then (-1, Sys.close (Sys.fcntl_setfl g.2 self.socket_fd f.1) self.socket_fd)
        else (0, Sys.fcntl_setfl g.2 self.socket_fd f.1)

end TcpIPv4

/-- Fields of `class TcpIPv6`. -/
structure TcpIPv6 extends TcpBase where
  server_addr : InetAddr := {}
  deriving DecidableEq, Repr

namespace TcpIPv6

/-- `int initTcp()`. -/
def initTcp (self : TcpIPv6) (w : World) : Int × TcpIPv6 × World :=
  (if (Sys.socket w AF_INET6).1 < 0 then -1 else 0,
    { self with socket_fd := (Sys.socket w AF_INET6).1 }, (Sys.socket w AF_INET6).2)

/-- `int set_address(const char* ip, int port)`. -/
def set_address (self : TcpIPv6) (ip : String) (port : Int) (w : World) : Int × TcpIPv6 × World :=
  if (Sys.inet_pton w AF_INET6 ip).1 ≤ 0 then
    (-1, { self with server_addr := { self.server_addr with
              family := AF_INET6, port := htons (port % 65536).toNat } },
      Sys.close (Sys.inet_pton w AF_INET6 ip).2 self.socket_fd)
  else
    (0, { self with server_addr := { family := AF_INET6, port := htons (port % 65536).toNat,
                                      addr := some ip } },
      (Sys.inet_pton w AF_INET6 ip).2)

/-- `int connect_to_server()`. -/
def connect_to_server (self : TcpIPv6) (w : World) : Int × World :=
  if self.time_out = 0 then
    let c := Sys.connect w self.socket_fd
    if c.1.1 < 0 then (-1, Sys.close c.2 self.socket_fd) else (0, c.2)
  else
    let f := Sys.fcntl_getfl w self.socket_fd
    let c := Sys.connect (Sys.fcntl_setfl f.2 self.socket_fd (setNonblock f.1)) self.socket_fd
    if c.1.1 = 0 then (0, Sys.fcntl_setfl c.2 self.socket_fd f.1)
    else if c.1.2 ≠ EINPROGRESS then (-1, Sys.close c.2 self.socket_fd)
    else
      let s := Sys.select_write c.2 self.socket_fd (self.time_out / 1000)
        (self.time_out % 1000 * 1000)
      if s.1 ≤ 0 then (-1, Sys.close s.2 self.socket_fd)
      else
        let g := Sys.getsockopt_so_error s.2 self.socket_fd 0
        if g.1 ≠ 0 then (-1, Sys.close (Sys.fcntl_setfl g.2 self.socket_fd f.1) self.socket_fd)
        else (0, Sys.fcntl_setfl g.2 self.socket_fd f.1)

end TcpIPv6

/-- One public operation on a `TcpIPv4` object, with its arguments. -/
inductive TcpOp where
  | initTcp
  | set_address (ip : String) (port : Int)
  | set_timeout (ms : Nat)
  | connect_to_server
  | send_data (data : List Byte)
  | recv_data (length : Nat)
  | close_connection
  deriving DecidableEq, Repr

namespace TcpIPv4

/-- Effect of one public operation on the object and the world (the value it
returns, or the exception `recv_data` throws, is dropped). -/
def step (op : TcpOp) (s : TcpIPv4 × World) : TcpIPv4 × World :=
  match op with
  | .initTcp => (initTcp s.1 s.2).2
  | .set_address ip port => (set_address s.1 ip port s.2).2
  | .set_timeout ms => ({ s.1 with time_out := ms }, s.2)
  | .connect_to_server => (s.1, (connect_to_server s.1 s.2).2)
  | .send_data data => (s.1, (s.1.toTcpBase.send_data data s.2).2)
  | .recv_data length => (s.1, (s.1.toTcpBase.recv_data [] length s.2).2)
  | .close_connection =>
      ({ s.1 with socket_fd := (s.1.toTcpBase.close_connection s.2).1.socket_fd },
        (s.1.toTcpBase.close_connection s.2).2)

/-- The operations `ops` applied in order. -/
def run (ops : List TcpOp) (s : TcpIPv4 × World) : TcpIPv4 × World :=
  ops.foldl (fun acc op => step op acc) s

/-- A whole object lifetime: default construction, the operations `ops`, then
destruction (`~TcpIPv4()` is the inherited `~TcpBase()`). -/
def lifetime (ops : List TcpOp) (w : World) : World :=
  (run ops ({}, w)).1.toTcpBase.destructor (run ops ({}, w)).2

end TcpIPv4

/-- How many times `close(fd)` occurs among the events. -/
def closeCount (fd : Int) (evs : List Event) : Nat := evs.count (Event.close fd)

/-! ## `udp.hpp` -/

/-- Fields of `class UdpBase`. -/
structure UdpBase where
  socket_fd : Int := -1
  time_out : Nat := 0
  deriving DecidableEq, Repr

/-- What a datagram or message `recv_data` hands back: the returned `int`, the
string `result`, the content of `*src_addr` and the content of `*stream_no`
(`none` for a null pointer; unused by `UdpBase`). -/
structure PacketRecv where
  ret : Int
  result : List Byte
  src_addr : SockAddr
  stream_no : Option Int := none
  deriving DecidableEq, Repr

namespace UdpBase

/-- `set_timeout(ms)`. -/
def set_timeout (self : UdpBase) (ms : Nat) : UdpBase := { self with time_out := ms }

/-- `int send_data(const std::string& data, const struct sockaddr* dest_addr,
socklen_t addr_len)`; the `ssize_t` result of `sendto` is returned as `int`. -/
def send_data (self : UdpBase) (data : List Byte) (dest_addr : SockAddr) (w : World) :
    Int × World :=
  if (wait_writable self.socket_fd self.time_out w).1 then
    (-1, (wait_writable self.socket_fd self.time_out w).2)
  else
    let r := Sys.sendto (wait_writable self.socket_fd self.time_out w).2 self.socket_fd data
      dest_addr
    (toInt32 r.1, r.2)

/-- `int recv_data(std::string& result, struct sockaddr* src_addr, socklen_t*
addr_len)`; `src_addr` is the content of `*src_addr` at the call. -/
def recv_data (self : UdpBase) (_result : List Byte) (src_addr : SockAddr) (w : World) :
    PacketRecv × World :=
  if (wait_readable self.socket_fd self.time_out w).1 then
    (⟨-1, [], src_addr, none⟩, (wait_readable self.socket_fd self.time_out w).2)
  else
    let r := Sys.recvfrom (wait_readable self.socket_fd self.time_out w).2 self.socket_fd 65536
    if r.1.ret ≤ 0 then (⟨-1, [], r.1.src.getD src_addr, none⟩, r.2)
    else (⟨toInt32 r.1.ret, r.1.data.take r.1.ret.toNat, r.1.src.getD src_addr, none⟩, r.2)

/-- `void close_connection()`. -/
def close_connection (self : UdpBase) (w : World) : UdpBase × World :=
  ({ self with socket_fd := -1 }, Sys.close w self.socket_fd)

/-- The destructor `~UdpBase()`. -/
def destructor (self : UdpBase) (w : World) : World :=
  if 0 ≤ self.socket_fd then (close_connection self w).2 else w

end UdpBase

/-- Fields of `class UdpIPv4`. -/
structure UdpIPv4 extends UdpBase where
  server_addr : InetAddr := {}
  deriving DecidableEq, Repr

/-- Fields of `class UdpServerIPv4`. -/
structure UdpServerIPv4 where
  socket : UdpIPv4 := {}
  deriving DecidableEq, Repr

namespace UdpServerIPv4

/-- `int recv_data(std::string& result, struct sockaddr_in* client_addr)`;
`client_addr` is the content of `*client_addr` at the call. -/
def recv_data (self : UdpServerIPv4) (result : List Byte) (client_addr : SockAddr) (w : World) :
    PacketRecv × World :=
  self.socket.toUdpBase.recv_data result client_addr w

/-- `int send_data(const std::string& data, const struct sockaddr_in* client_addr)`. -/
def send_data (self : UdpServerIPv4) (data : List Byte) (client_addr : SockAddr) (w : World) :
    Int × World :=
  self.socket.toUdpBase.send_data data client_addr w

end UdpServerIPv4

/-- Fields of `class UdpIPv6`. -/
structure UdpIPv6 extends UdpBase where
  server_addr : InetAddr := {}
  deriving DecidableEq, Repr

/-- Fields of `class UdpServerIPv6`. -/
structure UdpServerIPv6 where
  socket : UdpIPv6 := {}
  deriving DecidableEq, Repr

namespace UdpServerIPv6

/-- `int recv_data(std::string& result, struct sockaddr_in6* client_addr)`. -/
def recv_data (self : UdpServerIPv6) (result : List Byte) (client_addr : SockAddr) (w : World) :
    PacketRecv × World :=
  self.socket.toUdpBase.recv_data result client_addr w

/-- `int send_data(const std::string& data, const struct sockaddr_in6* client_addr)`. -/
def send_data (self : UdpServerIPv6) (data : List Byte) (client_addr : SockAddr) (w : World) :
    Int × World :=
  self.socket.toUdpBase.send_data data client_addr w

end UdpServerIPv6

/-! ## `sctp.hpp` -/

/-- Fields of `class SctpBase`. -/
structure SctpBase where
  socket_fd : Int := -1
  time_out : Nat := 0
  deriving DecidableEq, Repr

namespace SctpBase

/-- `set_timeout(ms)`. -/
def set_timeout (self : SctpBase) (ms : Nat) : SctpBase := { self with time_out := ms }

/-- `int send_data(const std::string& data, const struct sockaddr* dest_addr,
socklen_t addr_len, int stream_no = 0)`. -/
def send_data (self : SctpBase) (data : List Byte) (dest_addr : SockAddr) (stream_no : Int)
    (w : World) : Int × World :=
  if (wait_writable self.socket_fd self.time_out w).1 then
    (-1, (wait_writable self.socket_fd self.time_out w).2)
  else
    let r := Sys.sctp_sendmsg (wait_writable self.socket_fd self.time_out w).2 self.socket_fd
      data dest_addr stream_no
    (toInt32 r.1, r.2)

/-- `int recv_data(std::string& result, struct sockaddr* src_addr, socklen_t*
addr_len, int* stream_no = nullptr)`; `stream_no` is `none` for a null pointer
and otherwise the pointed-to value at the call. -/
def recv_data (self : SctpBase) (_result : List Byte) (src_addr : SockAddr)
    (stream_no : Option Int) (w : World) : PacketRecv × World :=
  if (wait_readable self.socket_fd self.time_out w).1 then
    (⟨-1, [], src_addr, stream_no⟩, (wait_readable self.socket_fd self.time_out w).2)
  else
    let r := Sys.sctp_recvmsg (wait_readable self.socket_fd self.time_out w).2 self.socket_fd
      65536
    if r.1.ret ≤ 0 then (⟨-1, [], r.1.src.getD src_addr, stream_no⟩, r.2)
    else
      (⟨toInt32 r.1.ret, r.1.data.take r.1.ret.toNat, r.1.src.getD src_addr,
          stream_no.map (fun _ => r.1.sinfo_stream)⟩, r.2)

/-- `void close_connection()`. -/
def close_connection (self : SctpBase) (w : World) : SctpBase × World :=
  ({ self with socket_fd := -1 }, Sys.close w self.socket_fd)

/-- The destructor `~SctpBase()`. -/
def destructor (self : SctpBase) (w : World) : World :=
  if 0 ≤ self.socket_fd then (close_connection self w).2 else w

end SctpBase

/-- Fields of `class SctpIPv4`. -/
structure SctpIPv4 extends SctpBase where
  server_addr : InetAddr := {}
  deriving DecidableEq, Repr

namespace SctpIPv4

/-- `int connect_to_server()`: the result of `connect` is returned as it is. -/
def connect_to_server (self : SctpIPv4) (w : World) : Int × World :=
  ((Sys.connect w self.socket_fd).1.1, (Sys.connect w self.socket_fd).2)

end SctpIPv4

/-- Fields of `class SctpIPv6`. -/
structure SctpIPv6 extends SctpBase where
  server_addr : InetAddr := {}
  deriving DecidableEq, Repr

namespace SctpIPv6

/-- `int connect_to_server()`: the result of `connect` is returned as it is. -/
def connect_to_server (self : SctpIPv6) (w : World) : Int × World :=
  ((Sys.connect w self.socket_fd).1.1, (Sys.connect w self.socket_fd).2)

end SctpIPv6

/-! ## `http.hpp` -/

/-- A `std::string` of the HTTP layer, one `Char` for each `char`. -/
abbrev Str := List Char

/-- Fields of `class HttpBase`. -/
structure HttpBase where
  host : Str := []
  port : Nat := 80
  request : Str := []
  response : Str := []
  deriving DecidableEq, Repr

/-- `h.find("\n", pos)`: the least index `i ≥ pos` with `h[i] == '\n'`; `none`
is `std::string::npos`. -/
def find_lf (h : Str) (pos : Nat) : Option Nat :=
  (List.range' pos (h.length - pos)).find? fun i => h.getD i ' ' == '\n'

/-- `h.replace(pos, 1, "\r\n")` for `pos < h.size()`. -/
def replace_lf (h : Str) (pos : Nat) : Str :=
  h.take pos ++ ['\r', '\n'] ++ h.drop (pos + 1)

/-- `s.substr(pos)`; `none` is the `std::out_of_range` thrown when `pos > s.size()`. -/
def substr (s : Str) (pos : Nat) : Option Str :=
  if s.length < pos then none else some (s.drop pos)

/-- `std::to_string(n)` for a `size_t`. -/
def to_string (n : Nat) : Str := (Nat.repr n).toList

/-- The loop `while ((pos = h.find("\n", pos)) != npos) { if (pos == 0 ||
h[pos-1] != '\r') h.replace(pos, 1, "\r\n"); pos += 2; }` of `build_and_send`,
entered with the current `h` and `pos`; its value is the final `h`. -/
def normalize_loop (h : Str) (pos : Nat) : Str :=
  match hf : find_lf h pos with
  | none => h
  | some p =>
      if p = 0 ∨ h.getD (p - 1) ' ' ≠ '\r' then normalize_loop (replace_lf h p) (p + 2)
      else normalize_loop h (p + 2)
termination_by h.length - pos
decreasing_by
  all_goals
    have hmem := List.mem_range'_1.1 (List.mem_of_find?_eq_some hf)
    try simp only [replace_lf, List.length_append, List.length_take, List.length_drop,
      List.length_cons, List.length_nil]
    omega

namespace HttpImpl

/-- The text the block `if (!headers.empty()) { … }` of `build_and_send` appends
to `request`: the copy `h` of `headers` after the loop, then `"\r\n"` if
`h.substr(h.size()-2) != "\r\n"`.  `h.size()-2` is computed in 64-bit unsigned
arithmetic; `none` stands for the exception `substr` throws. -/
def header_block (headers : Str) : Option Str :=
  match substr (normalize_loop headers 0)
      (((normalize_loop headers 0).length + 2 ^ 64 - 2) % 2 ^ 64) with
  | none => none
  | some last2 =>
      if last2 ≠ "\r\n".toList then some (normalize_loop headers 0 ++ "\r\n".toList)
      else some (normalize_loop headers 0)

/-- `int build_and_send(method, path, headers, body)`.  `sendRequest` stands
for the virtual `sendRequest()` it ends with, applied to the object holding the
assembled `request`; the value is that call's result and the object, or `none`
when the header block throws. -/
def build_and_send {α : Type} (sendRequest : HttpBase → α) (self : HttpBase)
    (method path headers body : Str) : Option (α × HttpBase) :=
  let r1 : Str := method ++ " ".toList ++ path ++ " HTTP/1.1\r\n".toList
  let r2 : Str := r1 ++ ("Host: ".toList ++ self.host ++ "\r\n".toList)
  let r3 : Str := r2 ++ "User-Agent: FMX-HttpClient/1.0\r\n".toList
  let r4 : Str := r3 ++ "Accept: */*\r\n".toList
  let r5 : Str := r4 ++ "Connection: close\r\n".toList
  match (if headers ≠ [] then (header_block headers).map fun b => r5 ++ b else some r5) with
  | none => none
  | some r6 =>
      let r7 : Str :=
        if body ≠ [] then r6 ++ ("Content-Length: ".toList ++ to_string body.length ++ "\r\n".toList)
        else r6
      let r8 : Str := r7 ++ "\r\n".toList
      let r9 : Str := if body ≠ [] then r8 ++ body else r8
      some (sendRequest { self with request := r9 }, { self with request := r9 })

/-- `int GET(path, headers)`. -/
def GET {α : Type} (sendRequest : HttpBase → α) (self : HttpBase) (path headers : Str) :
    Option (α × HttpBase) :=
  build_and_send sendRequest self "GET".toList path headers []

/-- `int POST(path, body, headers)`. -/
def POST {α : Type} (sendRequest : HttpBase → α) (self : HttpBase) (path body headers : Str) :
    Option (α × HttpBase) :=
  build_and_send sendRequest self "POST".toList path headers body

/-- `int HEAD(path, headers)`. -/
def HEAD {α : Type} (sendRequest : HttpBase → α) (self : HttpBase) (path headers : Str) :
    Option (α × HttpBase) :=
  build_and_send sendRequest self "HEAD".toList path headers []

/-- `int PUT(path, body, headers)`. -/
def PUT {α : Type} (sendRequest : HttpBase → α) (self : HttpBase) (path body headers : Str) :
    Option (α × HttpBase) :=
  build_and_send sendRequest self "PUT".toList path headers body

/-- `int DELETE(path, headers)`. -/
def DELETE {α : Type} (sendRequest : HttpBase → α) (self : HttpBase) (path headers : Str) :
    Option (α × HttpBase) :=
  build_and_send sendRequest self "DELETE".toList path headers []

end HttpImpl

/-! ## Sample worlds -/

/-- A world whose operating system gives the same answer to every call of a
kind: `socket` returns 3, `inet_pton` succeeds, `connect` returns `conn`,
`F_GETFL` returns 2, `SO_ERROR` is `soerr`, `select` returns `sel`, sending
calls return `wr len`, receiving calls answer `rd`. -/
def constWorld (conn : Int × Int) (soerr : Option Int) (sel : Int) (wr : Nat → Int)
    (rd : ReadAnswer) : World :=
  { socket := fun _ => 3, inet_pton := fun _ => 1, connect := fun _ => conn,
    getfl := fun _ => 2, so_error := fun _ => soerr, select := fun _ => sel,
    write := fun _ => wr, read := fun _ => rd, trace := [] }

/-! ## Observations on traces -/

/-- The bytes the operating system took over from the program, in call order:
a `send` that returned `ret > 0` accepted the first `ret` bytes it was offered. -/
def accepted : List Event → List Byte
  | [] => []
  | Event.send _ buf ret :: evs => buf.take ret.toNat ++ accepted evs
  | _ :: evs => accepted evs

/-- A cooperative peer: every coming sending call that is offered `r > 0` bytes
accepts between `1` and `r` of them. -/
def Cooperative (w : World) : Prop :=
  ∀ i r : Nat, 0 < r → 1 ≤ w.write i r ∧ w.write i r ≤ (r : Int)

/-- The operating system keeps the contract of the sending calls: none of them
reports more bytes than it was offered. -/
def WriteBounded (w : World) : Prop :=
  ∀ i r : Nat, w.write i r ≤ (r : Int)

/-- A step that makes `TcpBase::send_data` give up: a readiness wait for
writing or a `send` that returned `≤ 0`. -/
def refused : Event → Bool
  | Event.select_write _ _ _ ret => decide (ret ≤ 0)
  | Event.send _ _ ret => decide (ret ≤ 0)
  | _ => false

/-- The answer of a receiving call when the peer has closed: zero bytes. -/
def peerClosed : ReadAnswer := { ret := 0, data := [] }

/-- A world in which `select` reports ready and every sending call accepts one byte. -/
def oneByteWorld : World := constWorld (0, 0) none 1 (fun _ => 1) peerClosed

/-- A world in which every `select` returns `sel`, every sending call accepts
all it is offered and every receiving call finds the peer closed. -/
def selectWorld (sel : Int) : World := constWorld (0, 0) none sel (fun r => (r : Int)) peerClosed

/-- The coming receiving calls deliver exactly the chunks `chunks`, one per
call and in this order, each of them non-empty and no longer than the 4096-byte
buffer, and the call after the last chunk returns 0 (the peer has closed). -/
def Delivers (rd : Nat → ReadAnswer) : List (List Byte) → Prop
  | [] => (rd 0).ret = 0
  | c :: cs =>
      (rd 0).ret = (c.length : Int) ∧ (rd 0).data = c ∧ 0 < c.length ∧ c.length ≤ 4096 ∧
        Delivers (next rd) cs

/-- Every coming readiness wait reports the descriptor ready. -/
def AlwaysReady (w : World) : Prop := ∀ i : Nat, 0 < w.select i

/-- A chunk of 3855 zero bytes. -/
def zeroChunk : List Byte := List.replicate 3855 0

/-- A peer that sends `2^32 - 1` zero bytes in 1114129 chunks of 3855 bytes and then closes. -/
def floodChunks : List (List Byte) := List.replicate 1114129 zeroChunk

/-- The world of the peer that sends `floodChunks`. -/
def floodWorld : World :=
  { socket := fun _ => 3, inet_pton := fun _ => 1, connect := fun _ => (0, 0),
    getfl := fun _ => 2, so_error := fun _ => some 0, select := fun _ => 1,
    write := fun _ r => (r : Int),
    read := fun i => if i < 1114129 then { ret := 3855, data := zeroChunk } else peerClosed,
    trace := [] }

/-- A world whose peer sends the two chunks `[1, 2]` and `[3]` and then closes. -/
def twoChunkWorld : World :=
  { socket := fun _ => 3, inet_pton := fun _ => 1, connect := fun _ => (0, 0),
    getfl := fun _ => 2, so_error := fun _ => some 0, select := fun _ => 1,
    write := fun _ r => (r : Int),
    read := fun i => if i = 0 then { ret := 2, data := [1, 2] }
                      else if i = 1 then { ret := 1, data := [3] } else peerClosed,
    trace := [] }

/-- A world in which every wait reports ready, every sending call fails with
`-1` and every receiving call finds the peer closed. -/
def brokenWorld : World := constWorld (0, 0) none 1 (fun _ => -1) peerClosed

/-- The answers under which the timed connect is to end in `Connected`: the
non-blocking `connect` succeeds at once, or it leaves `EINPROGRESS`, the wait
for writability returns a positive value and the pending socket error read
afterwards (a variable initialised to 0) is 0. -/
def HandshakeSucceeds (w : World) : Prop :=
  (w.connect 0).1 = 0 ∨
    ((w.connect 0).1 ≠ 0 ∧ (w.connect 0).2 = EINPROGRESS ∧ 0 < w.select 0 ∧
      (w.so_error 0).getD 0 = 0)

/-- A world in which `connect` leaves `EINPROGRESS`, the wait reports ready and
no socket error is pending (`F_GETFL` returns 2). -/
def handshakeWorld : World := constWorld (-1, 115) (some 0) 1 (fun r => (r : Int)) peerClosed

/-- A world in which `connect` fails at once with `errno` 111 (connection refused). -/
def refusedWorld : World := constWorld (-1, 111) (some 0) 1 (fun r => (r : Int)) peerClosed

/-- The flag words written by the `fcntl(fd, F_SETFL, …)` calls among the
events, in call order. -/
def setflWrites (fd : Int) (evs : List Event) : List Int :=
  evs.filterMap fun e =>
    match e with
    | Event.fcntl_setfl fd' flags => if fd' = fd then some flags else none
    | _ => none

/-- Whether the event is a file-status-flag read or write (`fcntl`). -/
def isFcntl : Event → Bool
  | Event.fcntl_getfl _ _ => true
  | Event.fcntl_setfl _ _ => true
  | _ => false

/-- Whether the event is a `close` call. -/
def isClose : Event → Bool
  | Event.close _ => true
  | _ => false

/-- A world in which `socket` returns descriptor 3 and `inet_pton` rejects the
address text (returns 0). -/
def badAddressWorld : World :=
  { socket := fun _ => 3, inet_pton := fun _ => 0, connect := fun _ => (0, 0),
    getfl := fun _ => 2, so_error := fun _ => some 0, select := fun _ => 1,
    write := fun _ r => (r : Int), read := fun _ => peerClosed, trace := [] }

/-- A stream transport on descriptor 3 with the given timeout. -/
def sampleTcp (ms : Nat) : TcpBase := { socket_fd := 3, time_out := ms }

/-- A world in which the next datagram is empty and comes from the address
`[2, 0, 0, 53, 127, 0, 0, 1]`: the receiving call returns 0 and stores that address. -/
def emptyDatagramWorld : World :=
  { socket := fun _ => 3, inet_pton := fun _ => 1, connect := fun _ => (0, 0),
    getfl := fun _ => 2, so_error := fun _ => some 0, select := fun _ => 1,
    write := fun _ r => (r : Int),
    read := fun _ => { ret := 0, data := [], src := some [2, 0, 0, 53, 127, 0, 0, 1] },
    trace := [] }

/-- A world in which the next datagram is `[7, 8, 9]` from the address
`[2, 0, 0, 53, 127, 0, 0, 1]`. -/
def datagramWorld : World :=
  { socket := fun _ => 3, inet_pton := fun _ => 1, connect := fun _ => (0, 0),
    getfl := fun _ => 2, so_error := fun _ => some 0, select := fun _ => 1,
    write := fun _ r => (r : Int),
    read := fun _ => { ret := 3, data := [7, 8, 9], src := some [2, 0, 0, 53, 127, 0, 0, 1] },
    trace := [] }

/-- The deadline a `select` event carries is the timeout `ms` exactly, in a
well-formed `timeval` whose fields fit their signed 64-bit types:
`tv_sec * 1000000 + tv_usec = ms * 1000`, `tv_usec < 1000000`, `tv_sec < 2^63`.
Events other than `select` carry no deadline. -/
def deadlineExact (ms : Nat) : Event → Prop
  | Event.select_read _ tv_sec tv_usec _ =>
      tv_sec * 1000000 + tv_usec = ms * 1000 ∧ tv_usec < 1000000 ∧ tv_sec < 2 ^ 63
  | Event.select_write _ tv_sec tv_usec _ =>
      tv_sec * 1000000 + tv_usec = ms * 1000 ∧ tv_usec < 1000000 ∧ tv_sec < 2 ^ 63
  | _ => True

/-- The request text as the wire format describes it for a call without caller
headers: request line, the four fixed headers, `Content-Length` with the
decimal body length if and only if the body is non-empty, a blank line, the body. -/
def wireRequest (method path host body : Str) : Str :=
  method ++ " ".toList ++ path ++ " HTTP/1.1".toList ++ "\r\n".toList ++
    "Host: ".toList ++ host ++ "\r\n".toList ++
    "User-Agent: FMX-HttpClient/1.0".toList ++ "\r\n".toList ++
    "Accept: */*".toList ++ "\r\n".toList ++
    "Connection: close".toList ++ "\r\n".toList ++
    (if body ≠ [] then "Content-Length: ".toList ++ (Nat.repr body.length).toList ++ "\r\n".toList
      else []) ++
    "\r\n".toList ++ body

/-- Whether the text holds a line feed that is not immediately preceded by a
carriage return. -/
def hasBareLf (s : Str) : Bool :=
  (List.range s.length).any fun i =>
    s.getD i ' ' == '\n' && (i == 0 || s.getD (i - 1) ' ' != '\r')

/-! ## Theorems -/

theorem accepted_append (xs ys : List Event) : accepted (xs ++ ys) = accepted xs ++ accepted ys := by
  induction xs with
  | nil => rfl
  | cons e xs ih => cases e <;> simp [accepted, ih]

theorem toInt32_of_lt (n : Nat) (h : n < 2 ^ 31) : toInt32 (n : Int) = n := by
  unfold toInt32
  omega

theorem issued_of_trace (w w' : World) (evs : List Event) (h : w'.trace = w.trace ++ evs) :
    issued w w' = evs := by
  simp [issued, h]

theorem send_loop_cooperative (self : TcpBase) (data : List Byte) (h0 : self.time_out = 0) :
    ∀ (n t : Nat) (w : World), data.length - t = n → t ≤ data.length → Cooperative w →
      (self.send_loop data t w).1 = toInt32 (data.length : Int) ∧
      ∃ evs, (self.send_loop data t w).2.trace = w.trace ++ evs ∧ accepted evs = data.drop t := by
  intro n
  induction n using Nat.strong_induction_on with
  | _ n ih =>
    intro t w hn ht hc
    rw [TcpBase.send_loop]
    by_cases hlt : t < data.length
    · have hw : wait_writable self.socket_fd self.time_out w = (false, w) := by
        simp [wait_writable, h0]
      have hr := hc 0 (data.length - t) (by omega)
      have hlen : (data.drop t).length = data.length - t := by simp
      simp only [hlt, if_true, hw, Sys.send, hlen]
      have hpos : ¬ w.write 0 (data.length - t) ≤ 0 := by omega
      simp only [hpos, if_false, Bool.false_eq_true]
      have hle : (w.write 0 (data.length - t)).toNat ≤ data.length - t := by omega
      have hge : 1 ≤ (w.write 0 (data.length - t)).toNat := by omega
      obtain ⟨h1, evs, h2, h3⟩ := ih (data.length - (t + (w.write 0 (data.length - t)).toNat))
        (by omega) (t + (w.write 0 (data.length - t)).toNat)
        { w with write := next w.write,
                 trace := w.trace ++ [Event.send self.socket_fd (data.drop t)
                   (w.write 0 (data.length - t))] }
        rfl (by omega) (fun i r hr0 => hc (i + 1) r hr0)
      refine ⟨h1, Event.send self.socket_fd (data.drop t) (w.write 0 (data.length - t)) :: evs, ?_, ?_⟩
      · rw [h2]; simp
      · simp only [accepted, h3]
        rw [← List.drop_drop]
        exact List.take_append_drop _ _
    · have : t = data.length := by omega
      subst this
      simp [accepted]


theorem wait_writable_cases (fd : Int) (ms : Nat) (w : World) :
    (ms = 0 ∧ wait_writable fd ms w = (false, w)) ∨
    (0 < ms ∧ wait_writable fd ms w =
      (decide (w.select 0 ≤ 0),
        { w with select := next w.select,
                 trace := w.trace ++
                   [Event.select_write fd (ms / 1000) (ms % 1000 * 1000) (w.select 0)] })) := by
  rcases Nat.eq_zero_or_pos ms with h | h
  · left; simp [wait_writable, h]
  · right; simp [wait_writable, h, Sys.select_write]

theorem wait_readable_cases (fd : Int) (ms : Nat) (w : World) :
    (ms = 0 ∧ wait_readable fd ms w = (false, w)) ∨
    (0 < ms ∧ wait_readable fd ms w =
      (decide (w.select 0 ≤ 0),
        { w with select := next w.select,
                 trace := w.trace ++
                   [Event.select_read fd (ms / 1000) (ms % 1000 * 1000) (w.select 0)] })) := by
  rcases Nat.eq_zero_or_pos ms with h | h
  · left; simp [wait_readable, h]
  · right; simp [wait_readable, h, Sys.select_read]

theorem send_loop_outcome (self : TcpBase) (data : List Byte) :
    ∀ (n t : Nat) (w : World), data.length - t = n → t ≤ data.length → WriteBounded w →
      ∃ evs, (self.send_loop data t w).2.trace = w.trace ++ evs ∧
        (((self.send_loop data t w).1 = -1 ∧ ∃ e ∈ evs, refused e = true) ∨
         ((self.send_loop data t w).1 = toInt32 (data.length : Int) ∧
            (∀ e ∈ evs, refused e = false) ∧ accepted evs = data.drop t)) := by
  intro n
  induction n using Nat.strong_induction_on with
  | _ n ih =>
    intro t w hn ht hb
    rw [TcpBase.send_loop]
    by_cases hlt : t < data.length
    · simp only [hlt, if_true]
      have hlen : (data.drop t).length = data.length - t := by simp
      -- one iteration from a world `v` reached after the wait, `pre` being the wait's events
      have body : ∀ (v : World) (pre : List Event), v.trace = w.trace ++ pre → v.write = w.write →
          (∀ e ∈ pre, refused e = false) → accepted pre = [] →
          ∃ evs, (if (Sys.send v self.socket_fd (data.drop t)).1 ≤ 0 then
                    ((-1 : Int), (Sys.send v self.socket_fd (data.drop t)).2)
                  else self.send_loop data
                    (t + (Sys.send v self.socket_fd (data.drop t)).1.toNat)
                    (Sys.send v self.socket_fd (data.drop t)).2).2.trace = w.trace ++ evs ∧
            (((if (Sys.send v self.socket_fd (data.drop t)).1 ≤ 0 then
                    ((-1 : Int), (Sys.send v self.socket_fd (data.drop t)).2)
                  else self.send_loop data
                    (t + (Sys.send v self.socket_fd (data.drop t)).1.toNat)
                    (Sys.send v self.socket_fd (data.drop t)).2).1 = -1 ∧
                ∃ e ∈ evs, refused e = true) ∨
             ((if (Sys.send v self.socket_fd (data.drop t)).1 ≤ 0 then
                    ((-1 : Int), (Sys.send v self.socket_fd (data.drop t)).2)
                  else self.send_loop data
                    (t + (Sys.send v self.socket_fd (data.drop t)).1.toNat)
                    (Sys.send v self.socket_fd (data.drop t)).2).1 = toInt32 (data.length : Int) ∧
                (∀ e ∈ evs, refused e = false) ∧ accepted evs = data.drop t)) := by
        intro v pre hv hvw hpre hacc
        simp only [Sys.send, hlen, hvw]
        by_cases hs : w.write 0 (data.length - t) ≤ 0
        · simp only [hs, if_true]
          refine ⟨pre ++ [Event.send self.socket_fd (data.drop t) (w.write 0 (data.length - t))],
            by simp [hv], Or.inl ⟨trivial,
              Event.send self.socket_fd (data.drop t) (w.write 0 (data.length - t)),
              by simp, by simp [refused, hs]⟩⟩
        · simp only [hs, if_false]
          have hr := hb 0 (data.length - t)
          obtain ⟨evs, h2, h3⟩ := ih (data.length - (t + (w.write 0 (data.length - t)).toNat))
            (by omega) (t + (w.write 0 (data.length - t)).toNat)
            { v with write := next w.write,
                     trace := v.trace ++ [Event.send self.socket_fd (data.drop t)
                       (w.write 0 (data.length - t))] }
            rfl (by omega) (fun i r => hb (i + 1) r)
          refine ⟨pre ++ Event.send self.socket_fd (data.drop t) (w.write 0 (data.length - t))
            :: evs, by rw [h2]; simp [hv], ?_⟩
          rcases h3 with ⟨h3, e, he, hre⟩ | ⟨h3, h4, h5⟩
          · exact Or.inl ⟨h3, e, by simp [he], hre⟩
          · refine Or.inr ⟨h3, ?_, ?_⟩
            · intro e he
              rcases List.mem_append.1 he with he | he
              · exact hpre e he
              · rcases List.mem_cons.1 he with he | he
                · subst he; simp [refused, hs]
                · exact h4 e he
            · rw [accepted_append, hacc]
              simp only [accepted, h5, List.nil_append]
              rw [← List.drop_drop]
              exact List.take_append_drop _ _
      rcases wait_writable_cases self.socket_fd self.time_out w with ⟨_, hw⟩ | ⟨_, hw⟩
      · rw [hw]
        simpa using body w [] (by simp) rfl (by simp) rfl
      · rw [hw]
        by_cases hsel : w.select 0 ≤ 0
        · simp only [hsel, decide_True, if_true]
          exact ⟨_, rfl, Or.inl ⟨trivial, _, List.mem_singleton.2 rfl, by simp [refused, hsel]⟩⟩
        · simp only [hsel, decide_False, Bool.false_eq_true, if_false]
          exact body _ _ rfl rfl (by simp [refused, hsel]) rfl
    · have : t = data.length := by omega
      subst this
      simp [accepted]

/-- C1: with `time_out = 0` and a cooperative peer, `TcpBase::send_data` on a
payload of at most 10 MiB returns the payload length, and the byte ranges the
successive `send` calls accepted, concatenated in call order, are the payload. -/
theorem C1_send_data_delivers_payload (self : TcpBase) (data : List Byte) (w : World)
    (hto : self.time_out = 0) (hn : data.length ≤ 10 * 2 ^ 20) (hc : Cooperative w) :
    (self.send_data data w).1 = (data.length : Int) ∧
      accepted (issued w (self.send_data data w).2) = data := by
  obtain ⟨h1, evs, h2, h3⟩ :=
    send_loop_cooperative self data hto (data.length - 0) 0 w rfl (Nat.zero_le _) hc
  refine ⟨?_, ?_⟩
  · rw [TcpBase.send_data, h1]
    exact toInt32_of_lt _ (by omega)
  · rw [TcpBase.send_data, issued_of_trace _ _ _ h2, h3]
    rfl

/-- C1 at a concrete input: three bytes sent to a peer that accepts one byte per call. -/
theorem C1_send_data_delivers_payload_witness :
    ((sampleTcp 0).send_data [10, 20, 30] oneByteWorld).1 = 3 ∧
      accepted (issued oneByteWorld ((sampleTcp 0).send_data [10, 20, 30] oneByteWorld).2) =
        [10, 20, 30] :=
  C1_send_data_delivers_payload (sampleTcp 0) [10, 20, 30] oneByteWorld rfl (by decide)
    (fun _ r hr => ⟨by simp [oneByteWorld, constWorld], by simp [oneByteWorld, constWorld]; omega⟩)

/-- C2: for a payload of length `n ≤ 2^31 - 1`, any timeout and any answers of
the operating system (a sending call never reporting more than it was offered),
`TcpBase::send_data` returns `-1` or `n`, and it returns `-1` exactly when one
of the calls it issued, a readiness wait or a `send`, returned `≤ 0`. -/
theorem C2_send_data_all_or_nothing (self : TcpBase) (data : List Byte) (w : World)
    (hn : data.length ≤ 2 ^ 31 - 1) (hb : WriteBounded w) :
    ((self.send_data data w).1 = -1 ∨ (self.send_data data w).1 = (data.length : Int)) ∧
      ((self.send_data data w).1 = -1 ↔
        ∃ e ∈ issued w (self.send_data data w).2, refused e = true) := by
  obtain ⟨evs, h1, h2⟩ := send_loop_outcome self data (data.length - 0) 0 w rfl (Nat.zero_le _) hb
  have hcast : toInt32 (data.length : Int) = data.length := toInt32_of_lt _ (by omega)
  rw [TcpBase.send_data, issued_of_trace _ _ _ h1]
  rcases h2 with ⟨h2, h3⟩ | ⟨h2, h3, _⟩
  · exact ⟨Or.inl h2, fun _ => h3, fun _ => h2⟩
  · rw [hcast] at h2
    refine ⟨Or.inr h2, fun h => ?_, fun ⟨e, he, hr⟩ => ?_⟩
    · rw [h2] at h; omega
    · rw [h3 e he] at hr; cases hr

/-- C2 at a concrete input: two bytes, timeout 5 ms, `select` reports a timeout. -/
theorem C2_send_data_all_or_nothing_witness :
    (((sampleTcp 5).send_data [1, 2] (selectWorld 0)).1 = -1 ∨
        ((sampleTcp 5).send_data [1, 2] (selectWorld 0)).1 = (([1, 2] : List Byte).length : Int)) ∧
      (((sampleTcp 5).send_data [1, 2] (selectWorld 0)).1 = -1 ↔
        ∃ e ∈ issued (selectWorld 0) ((sampleTcp 5).send_data [1, 2] (selectWorld 0)).2,
          refused e = true) :=
  C2_send_data_all_or_nothing (sampleTcp 5) [1, 2] (selectWorld 0) (by decide)
    (fun _ r => by simp [selectWorld, constWorld])

theorem recv_loop_delivers (self : TcpBase) (length : Nat) :
    ∀ (chunks : List (List Byte)) (res : List Byte) (t : Nat) (w : World),
      Delivers w.read chunks → (self.time_out = 0 ∨ AlwaysReady w) →
      t + chunks.flatten.length < length →
      (self.recv_loop length res t w).1 = (t + chunks.flatten.length, res ++ chunks.flatten) := by
  intro chunks
  induction chunks with
  | nil =>
    intro res t w hd hr hlt
    simp only [Delivers] at hd
    rw [TcpBase.recv_loop]
    have ht : t < length := by simpa using hlt
    simp only [ht, if_true]
    rcases wait_readable_cases self.socket_fd self.time_out w with ⟨_, hw⟩ | ⟨hpos, hw⟩
    · simp [hw, Sys.recv, hd]
    · have hsel : ¬ w.select 0 ≤ 0 := by
        rcases hr with h | h
        · omega
        · exact not_le.2 (h 0)
      simp [hw, hsel, Sys.recv, hd]
  | cons c cs ih =>
    intro res t w hd hr hlt
    obtain ⟨hret, hdata, hpos, _, hrest⟩ := hd
    rw [TcpBase.recv_loop]
    have hlen : (c :: cs).flatten.length = c.length + cs.flatten.length := by simp
    have ht : t < length := by omega
    have hnot : ¬ ((c.length : Int) ≤ 0) := by omega
    simp only [ht, if_true]
    rcases wait_readable_cases self.socket_fd self.time_out w with ⟨hz, hw⟩ | ⟨hp, hw⟩
    · simp only [hw, Sys.recv, hret, hdata, hnot, if_false, Bool.false_eq_true, Int.toNat_ofNat,
        List.take_length]
      rw [ih (res ++ c) (t + c.length) _ hrest (Or.inl hz) (by omega), hlen]
      simp [Nat.add_assoc]
    · have hall : AlwaysReady w := by
        rcases hr with h | h
        · omega
        · exact h
      have hsel : ¬ w.select 0 ≤ 0 := not_le.2 (hall 0)
      simp only [hw, hsel, decide_False, Sys.recv, hret, hdata, hnot, if_false,
        Bool.false_eq_true, Int.toNat_ofNat, List.take_length]
      rw [ih (res ++ c) (t + c.length) _ hrest (Or.inr (fun i => hall (i + 1))) (by omega), hlen]
      simp [Nat.add_assoc]

theorem string_reserve_granted (w : World) (length : Nat) (hmax : length ≤ max_size)
    (ha : w.alloc 0 length = true) : (string_reserve w length).1 = true := by
  simp [string_reserve, hmax, ha]

theorem string_reserve_too_long (w : World) (length : Nat) (hmax : max_size < length) :
    (string_reserve w length).1 = false := by
  have h : ¬ length ≤ max_size := by omega
  simp [string_reserve, h]

theorem recv_data_delivers (self : TcpBase) (old : List Byte) (length : Nat)
    (chunks : List (List Byte)) (w : World) (hd : Delivers w.read chunks)
    (hr : self.time_out = 0 ∨ AlwaysReady w) (hlt : chunks.flatten.length < length)
    (hmax : length ≤ max_size) (ha : w.alloc 0 length = true) :
    (self.recv_data old length w).1 =
      some ⟨toInt32 (chunks.flatten.length : Int), chunks.flatten⟩ := by
  have h := recv_loop_delivers self length chunks [] 0 (string_reserve w length).2 hd hr
    (by omega)
  simp [TcpBase.recv_data, string_reserve_granted w length hmax ha, h]

theorem recv_data_throws (self : TcpBase) (old : List Byte) (length : Nat) (w : World)
    (hres : (string_reserve w length).1 = false) :
    (self.recv_data old length w).1 = none ∧ issued w (self.recv_data old length w).2 = [] := by
  have h : self.recv_data old length w = (none, (string_reserve w length).2) := by
    simp only [TcpBase.recv_data, hres, Bool.false_eq_true, if_false]
  rw [h]
  exact ⟨rfl, by simp [issued, string_reserve]⟩

theorem recv_data_issued_all (P : Event → Prop) (self : TcpBase) (old : List Byte)
    (length : Nat) (w : World)
    (h : ∀ v : World, v.trace = w.trace →
      ∃ evs, (self.recv_loop length [] 0 v).2.trace = v.trace ++ evs ∧ ∀ e ∈ evs, P e) :
    ∀ e ∈ issued w (self.recv_data old length w).2, P e := by
  by_cases hres : (string_reserve w length).1 = true
  · obtain ⟨evs, h1, h2⟩ := h (string_reserve w length).2 rfl
    have h3 : (self.recv_data old length w).2.trace = w.trace ++ evs := by
      simp only [TcpBase.recv_data, hres, if_true]
      exact h1
    rw [issued_of_trace _ _ _ h3]
    exact h2
  · have hf : (string_reserve w length).1 = false := by simpa using hres
    rw [(recv_data_throws self old length w hf).2]
    intro e he
    cases he

theorem delivers_replicate (c : List Byte) (hpos : 0 < c.length) (hle : c.length ≤ 4096) :
    ∀ (n : Nat) (rd : Nat → ReadAnswer),
      (∀ i, i < n → (rd i).ret = (c.length : Int) ∧ (rd i).data = c) → (rd n).ret = 0 →
      Delivers rd (List.replicate n c) := by
  intro n
  induction n with
  | zero => intro rd _ h0; simpa [Delivers] using h0
  | succ n ih =>
    intro rd h h0
    rw [List.replicate_succ]
    exact ⟨(h 0 (Nat.succ_pos n)).1, (h 0 (Nat.succ_pos n)).2, hpos, hle,
      ih (next rd) (fun i hi => h (i + 1) (Nat.succ_lt_succ hi)) h0⟩

theorem length_flatten_replicate (c : List Byte) (n : Nat) :
    (List.replicate n c).flatten.length = n * c.length := by
  induction n with
  | zero => simp
  | succ n ih => rw [List.replicate_succ, List.flatten_cons, List.length_append, ih]; ring

/-- C3 (amended): if `result.reserve(maxBytes)` returns normally (`maxBytes ≤
max_size()` and the allocator grants the buffer) and the coming reads deliver
`k ≤ 2^31 - 1` bytes, split in any way into non-empty chunks that fit the
buffer, after which the next read returns 0, then `TcpBase::recv_data` with
`maxBytes > k` (no timeout, or every wait reporting ready) returns `k`, which
is not `-1`, and `result` is exactly the delivered bytes in arrival order,
whatever it held before.  For `maxBytes > max_size()` the call throws before
it issues any call, whatever the peer delivers. -/
theorem C3_recv_data_graceful_short_read (self : TcpBase) (old : List Byte) (maxBytes : Nat)
    (chunks : List (List Byte)) (w : World) (hd : Delivers w.read chunks)
    (hr : self.time_out = 0 ∨ AlwaysReady w) (hk : chunks.flatten.length < maxBytes)
    (hint : chunks.flatten.length ≤ 2 ^ 31 - 1) (hmax : maxBytes ≤ max_size)
    (ha : w.alloc 0 maxBytes = true) :
    (self.recv_data old maxBytes w).1 =
        some ⟨(chunks.flatten.length : Int), chunks.flatten⟩ ∧
      (chunks.flatten.length : Int) ≠ -1 ∧
      (∀ (n : Nat) (v : World), max_size < n →
        (self.recv_data old n v).1 = none ∧ issued v (self.recv_data old n v).2 = []) := by
  have hcast : toInt32 (chunks.flatten.length : Int) = chunks.flatten.length :=
    toInt32_of_lt _ (by omega)
  refine ⟨?_, by omega, fun n v hn =>
    recv_data_throws self old n v (string_reserve_too_long v n hn)⟩
  rw [recv_data_delivers self old maxBytes chunks w hd hr hk hmax ha, hcast]

/-- C3 (amended) at a concrete input: the peer sends `[1, 2]`, then `[3]`, then
closes; `recv_data` with `maxBytes = 10` on a string holding `[9, 9]`. -/
theorem C3_recv_data_graceful_short_read_witness :
    ((sampleTcp 7).recv_data [9, 9] 10 twoChunkWorld).1 = some ⟨3, [1, 2, 3]⟩ ∧
      (3 : Int) ≠ -1 :=
  ⟨(C3_recv_data_graceful_short_read (sampleTcp 7) [9, 9] 10 [[1, 2], [3]] twoChunkWorld
      (by simp [Delivers, twoChunkWorld, next, peerClosed])
      (Or.inr (fun _ => by simp [twoChunkWorld])) (by decide) (by decide) (by decide) rfl).1,
    by decide⟩

/-- C3 as stated fails in two ways.  At `k = 2^32 - 1`, `maxBytes = 2^32`: the
buffer is granted, the reads deliver `2^32 - 1` bytes and the next read returns
0, yet `recv_data` returns `-1`.  At `k = 3`, `maxBytes = 2^64 - 1`: the reads
would deliver `[1, 2]` and `[3]`, but `result.reserve(maxBytes)` throws and
`recv_data` returns nothing, having issued no read. -/
theorem C3_counterexample :
    (Delivers floodWorld.read floodChunks ∧ floodChunks.flatten.length = 2 ^ 32 - 1 ∧
      floodChunks.flatten.length < 2 ^ 32 ∧
      ((sampleTcp 0).recv_data [] (2 ^ 32) floodWorld).1.map StreamRecv.ret = some (-1)) ∧
    (Delivers twoChunkWorld.read [[1, 2], [3]] ∧
      ([[1, 2], [3]] : List (List Byte)).flatten.length < 2 ^ 64 - 1 ∧
      ((sampleTcp 0).recv_data [] (2 ^ 64 - 1) twoChunkWorld).1 = none ∧
      issued twoChunkWorld ((sampleTcp 0).recv_data [] (2 ^ 64 - 1) twoChunkWorld).2 = []) := by
  have hc : zeroChunk.length = 3855 := List.length_replicate _ _
  have hlen : floodChunks.flatten.length = 2 ^ 32 - 1 := by
    rw [floodChunks, length_flatten_replicate, hc]
    norm_num
  have hd : Delivers floodWorld.read floodChunks :=
    delivers_replicate zeroChunk (by rw [hc]; decide) (by rw [hc]; decide) 1114129
      floodWorld.read (fun i hi => by simp [floodWorld, hi, hc])
      (by simp [floodWorld, peerClosed])
  have hthrow := recv_data_throws (sampleTcp 0) [] (2 ^ 64 - 1) twoChunkWorld
    (string_reserve_too_long twoChunkWorld (2 ^ 64 - 1) (by decide))
  refine ⟨⟨hd, hlen, by rw [hlen]; norm_num, ?_⟩,
    ⟨by simp [Delivers, twoChunkWorld, next, peerClosed], by decide, hthrow.1, hthrow.2⟩⟩
  rw [recv_data_delivers (sampleTcp 0) [] (2 ^ 32) floodChunks floodWorld hd (Or.inl rfl)
    (by rw [hlen]; norm_num) (by decide) rfl, hlen]
  show some (toInt32 ((2 ^ 32 - 1 : Nat) : Int)) = some (-1)
  norm_num [toInt32]

theorem send_loop_wait_refused (self : TcpBase) (data : List Byte) (t : Nat) (w : World)
    (hms : 0 < self.time_out) (hsel : w.select 0 ≤ 0) (ht : t < data.length) :
    (self.send_loop data t w).1 = -1 ∧
      issued w (self.send_loop data t w).2 =
        [Event.select_write self.socket_fd (self.time_out / 1000) (self.time_out % 1000 * 1000)
          (w.select 0)] := by
  rw [TcpBase.send_loop]
  simp [ht, wait_writable, hms, hsel, Sys.select_write, issued]

theorem send_loop_write_refused (self : TcpBase) (data : List Byte) (t : Nat) (w : World)
    (hready : self.time_out = 0 ∨ 0 < w.select 0) (ht : t < data.length)
    (hwr : w.write 0 (data.length - t) ≤ 0) :
    (self.send_loop data t w).1 = -1 := by
  rw [TcpBase.send_loop]
  have hlen : (data.drop t).length = data.length - t := by simp
  rcases wait_writable_cases self.socket_fd self.time_out w with ⟨hz, hw⟩ | ⟨hp, hw⟩
  · simp [ht, hw, Sys.send, hwr]
  · have hsel : ¬ w.select 0 ≤ 0 := by omega
    simp [ht, hw, hsel, Sys.send, hwr]

theorem recv_loop_wait_refused (self : TcpBase) (length : Nat) (res : List Byte) (t : Nat)
    (w : World) (hms : 0 < self.time_out) (hsel : w.select 0 ≤ 0) (ht : t < length) :
    (self.recv_loop length res t w).1 = (t, res) ∧
      issued w (self.recv_loop length res t w).2 =
        [Event.select_read self.socket_fd (self.time_out / 1000) (self.time_out % 1000 * 1000)
          (w.select 0)] := by
  rw [TcpBase.recv_loop]
  simp [ht, wait_readable, hms, hsel, Sys.select_read, issued]

theorem recv_loop_read_refused (self : TcpBase) (length : Nat) (res : List Byte) (t : Nat)
    (w : World) (hready : self.time_out = 0 ∨ 0 < w.select 0) (ht : t < length)
    (hrd : (w.read 0).ret ≤ 0) :
    (self.recv_loop length res t w).1 = (t, res) := by
  rw [TcpBase.recv_loop]
  rcases wait_readable_cases self.socket_fd self.time_out w with ⟨hz, hw⟩ | ⟨hp, hw⟩
  · simp [ht, hw, Sys.recv, hrd]
  · have hsel : ¬ w.select 0 ≤ 0 := by omega
    simp [ht, hw, hsel, Sys.recv, hrd]

/-- C4 (amended): with a positive timeout, a readiness wait that returns 0
makes every transfer call stop at once, the wait being the only call issued:
the stream, datagram and message `send_data` and the datagram and message
`recv_data` return `-1`, and the stream receive loop leaves with the count and
bytes accumulated so far.  The same values come back when the wait returns a
negative value (world `v`) and when the wait reports ready but the transfer
call fails or finds the peer closed (world `r`): there is no separate timeout
outcome.  `TcpBase::send_data` is the first loop entered at count 0, and
`TcpBase::recv_data` the second once `result.reserve` has returned. -/
theorem C4_wait_timeout_outcome (fd : Int) (ms : Nat) (w v r : World) (hms : 0 < ms)
    (hw : w.select 0 = 0) (hv : v.select 0 < 0) (hr : 0 < r.select 0)
    (hwr : ∀ n, r.write 0 n = -1) (hrd : (r.read 0).ret ≤ 0) :
    (∀ (data : List Byte) (t : Nat), t < data.length →
      (TcpBase.send_loop ⟨fd, ms⟩ data t w).1 = -1 ∧
      issued w (TcpBase.send_loop ⟨fd, ms⟩ data t w).2 =
        [Event.select_write fd (ms / 1000) (ms % 1000 * 1000) 0] ∧
      (TcpBase.send_loop ⟨fd, ms⟩ data t v).1 = -1 ∧
      (TcpBase.send_loop ⟨fd, ms⟩ data t r).1 = -1) ∧
    (∀ (length : Nat) (res : List Byte) (t : Nat), t < length →
      (TcpBase.recv_loop ⟨fd, ms⟩ length res t w).1 = (t, res) ∧
      issued w (TcpBase.recv_loop ⟨fd, ms⟩ length res t w).2 =
        [Event.select_read fd (ms / 1000) (ms % 1000 * 1000) 0] ∧
      (TcpBase.recv_loop ⟨fd, ms⟩ length res t v).1 = (t, res) ∧
      (TcpBase.recv_loop ⟨fd, ms⟩ length res t r).1 = (t, res)) ∧
    (∀ (data : List Byte) (dest : SockAddr),
      (UdpBase.send_data ⟨fd, ms⟩ data dest w).1 = -1 ∧
      issued w (UdpBase.send_data ⟨fd, ms⟩ data dest w).2 =
        [Event.select_write fd (ms / 1000) (ms % 1000 * 1000) 0] ∧
      (UdpBase.send_data ⟨fd, ms⟩ data dest v).1 = -1 ∧
      (UdpBase.send_data ⟨fd, ms⟩ data dest r).1 = -1) ∧
    (∀ (old : List Byte) (src : SockAddr),
      (UdpBase.recv_data ⟨fd, ms⟩ old src w).1 = ⟨-1, [], src, none⟩ ∧
      issued w (UdpBase.recv_data ⟨fd, ms⟩ old src w).2 =
        [Event.select_read fd (ms / 1000) (ms % 1000 * 1000) 0] ∧
      (UdpBase.recv_data ⟨fd, ms⟩ old src v).1 = ⟨-1, [], src, none⟩ ∧
      (UdpBase.recv_data ⟨fd, ms⟩ old src r).1.ret = -1 ∧
      (UdpBase.recv_data ⟨fd, ms⟩ old src r).1.result = []) ∧
    (∀ (data : List Byte) (dest : SockAddr) (sn : Int),
      (SctpBase.send_data ⟨fd, ms⟩ data dest sn w).1 = -1 ∧
      issued w (SctpBase.send_data ⟨fd, ms⟩ data dest sn w).2 =
        [Event.select_write fd (ms / 1000) (ms % 1000 * 1000) 0] ∧
      (SctpBase.send_data ⟨fd, ms⟩ data dest sn v).1 = -1 ∧
      (SctpBase.send_data ⟨fd, ms⟩ data dest sn r).1 = -1) ∧
    (∀ (old : List Byte) (src : SockAddr) (sn : Option Int),
      (SctpBase.recv_data ⟨fd, ms⟩ old src sn w).1 = ⟨-1, [], src, sn⟩ ∧
      issued w (SctpBase.recv_data ⟨fd, ms⟩ old src sn w).2 =
        [Event.select_read fd (ms / 1000) (ms % 1000 * 1000) 0] ∧
      (SctpBase.recv_data ⟨fd, ms⟩ old src sn v).1 = ⟨-1, [], src, sn⟩ ∧
      (SctpBase.recv_data ⟨fd, ms⟩ old src sn r).1.ret = -1 ∧
      (SctpBase.recv_data ⟨fd, ms⟩ old src sn r).1.result = []) := by
  have hw0 : w.select 0 ≤ 0 := by omega
  have hv0 : v.select 0 ≤ 0 := by omega
  have hr0 : ¬ r.select 0 ≤ 0 := by omega
  have hm1 : toInt32 (-1) = -1 := by decide
  refine ⟨?_, ?_, ?_, ?_, ?_, ?_⟩
  · intro data t ht
    have h1 := send_loop_wait_refused ⟨fd, ms⟩ data t w hms hw0 ht
    rw [hw] at h1
    exact ⟨h1.1, h1.2, (send_loop_wait_refused ⟨fd, ms⟩ data t v hms hv0 ht).1,
      send_loop_write_refused ⟨fd, ms⟩ data t r (Or.inr hr) ht (by rw [hwr]; decide)⟩
  · intro length res t ht
    have h1 := recv_loop_wait_refused ⟨fd, ms⟩ length res t w hms hw0 ht
    rw [hw] at h1
    exact ⟨h1.1, h1.2, (recv_loop_wait_refused ⟨fd, ms⟩ length res t v hms hv0 ht).1,
      recv_loop_read_refused ⟨fd, ms⟩ length res t r (Or.inr hr) ht hrd⟩
  · intro data dest
    simp [UdpBase.send_data, wait_writable, hms, Sys.select_write, Sys.sendto, issued, hw, hv0,
      hr0, hwr, hm1]
  · intro old src
    simp [UdpBase.recv_data, wait_readable, hms, Sys.select_read, Sys.recvfrom, issued, hw, hv0,
      hr0, hrd]
  · intro data dest sn
    simp [SctpBase.send_data, wait_writable, hms, Sys.select_write, Sys.sctp_sendmsg, issued, hw,
      hv0, hr0, hwr, hm1]
  · intro old src sn
    simp [SctpBase.recv_data, wait_readable, hms, Sys.select_read, Sys.sctp_recvmsg, issued, hw,
      hv0, hr0, hrd]

/-- C4 (amended) at a concrete input: descriptor 3, timeout 5 ms, a wait that
times out, a wait that fails, and a ready wait followed by a failing transfer. -/
theorem C4_wait_timeout_outcome_witness :
    ((sampleTcp 5).send_data [1, 2] (selectWorld 0)).1 = -1 ∧
      issued (selectWorld 0) ((sampleTcp 5).send_data [1, 2] (selectWorld 0)).2 =
        [Event.select_write 3 (5 / 1000) (5 % 1000 * 1000) 0] ∧
      ((sampleTcp 5).send_data [1, 2] (selectWorld (-1))).1 = -1 ∧
      ((sampleTcp 5).send_data [1, 2] brokenWorld).1 = -1 :=
  (C4_wait_timeout_outcome 3 5 (selectWorld 0) (selectWorld (-1)) brokenWorld (by decide) rfl
    (by decide) (by decide) (fun _ => rfl) (by decide)).1 [1, 2] 0 (by decide)

/-- C4 as stated fails: with timeout 5 ms, `TcpBase::send_data` gives the same
outcome for a wait that times out (`select` returns 0) and for a wait that
fails (`select` returns -1); `TcpBase::recv_data` does not fail on a timeout
but returns the success value 0, the very outcome of a peer that has closed;
and `UdpBase::recv_data` returns `-1` both on a timeout and on a zero read. -/
theorem C4_counterexample :
    ((sampleTcp 5).send_data [1, 2] (selectWorld 0)).1 =
        ((sampleTcp 5).send_data [1, 2] (selectWorld (-1))).1 ∧
      ((sampleTcp 5).recv_data [] 4 (selectWorld 0)).1 = some ⟨0, []⟩ ∧
      ((sampleTcp 5).recv_data [] 4 (selectWorld 1)).1 = some ⟨0, []⟩ ∧
      (UdpBase.recv_data ⟨3, 5⟩ [] [] (selectWorld 0)).1 =
        (UdpBase.recv_data ⟨3, 5⟩ [] [] (selectWorld 1)).1 := by
  refine ⟨?_, ?_, ?_, ?_⟩
  · simp [TcpBase.send_data, TcpBase.send_loop, sampleTcp, wait_writable, Sys.select_write,
      selectWorld, constWorld]
  · simp [TcpBase.recv_data, string_reserve, max_size, TcpBase.recv_loop, sampleTcp,
      wait_readable, Sys.select_read, selectWorld, constWorld, toInt32]
  · simp [TcpBase.recv_data, string_reserve, max_size, TcpBase.recv_loop, sampleTcp,
      wait_readable, Sys.select_read, Sys.recv, selectWorld, constWorld, peerClosed, toInt32]
  · simp [UdpBase.recv_data, wait_readable, Sys.select_read, Sys.recvfrom, selectWorld,
      constWorld, peerClosed]

theorem tcp4_connect_timed_result (self : TcpIPv4) (w : World) (hms : 0 < self.time_out) :
    ((self.connect_to_server w).1 = 0 ↔ HandshakeSucceeds w) ∧
      (¬ HandshakeSucceeds w → (self.connect_to_server w).1 = -1) := by
  have hne : self.time_out ≠ 0 := by omega
  unfold HandshakeSucceeds
  simp only [TcpIPv4.connect_to_server, hne, if_false, Sys.connect, Sys.fcntl_getfl,
    Sys.fcntl_setfl, Sys.select_write, Sys.getsockopt_so_error, Sys.close]
  by_cases hc : (w.connect 0).1 = 0
  · simp [hc]
  · by_cases he : (w.connect 0).2 = EINPROGRESS
    · by_cases hs : w.select 0 ≤ 0
      · have hs' : ¬ 0 < w.select 0 := by omega
        simp [hc, he, hs, hs']
      · have hs' : 0 < w.select 0 := by omega
        by_cases hso : (w.so_error 0).getD 0 = 0
        · simp [hc, he, hs, hs', hso]
        · simp [hc, he, hs, hs', hso]
    · simp [hc, he]

theorem tcp6_connect_timed_result (self : TcpIPv6) (w : World) (hms : 0 < self.time_out) :
    ((self.connect_to_server w).1 = 0 ↔ HandshakeSucceeds w) ∧
      (¬ HandshakeSucceeds w → (self.connect_to_server w).1 = -1) := by
  have hne : self.time_out ≠ 0 := by omega
  unfold HandshakeSucceeds
  simp only [TcpIPv6.connect_to_server, hne, if_false, Sys.connect, Sys.fcntl_getfl,
    Sys.fcntl_setfl, Sys.select_write, Sys.getsockopt_so_error, Sys.close]
  by_cases hc : (w.connect 0).1 = 0
  · simp [hc]
  · by_cases he : (w.connect 0).2 = EINPROGRESS
    · by_cases hs : w.select 0 ≤ 0
      · have hs' : ¬ 0 < w.select 0 := by omega
        simp [hc, he, hs, hs']
      · have hs' : 0 < w.select 0 := by omega
        by_cases hso : (w.so_error 0).getD 0 = 0
        · simp [hc, he, hs, hs', hso]
        · simp [hc, he, hs, hs', hso]
    · simp [hc, he]

/-- C5: with a positive timeout and any answers of the operating system,
`TcpIPv4::connect_to_server` and `TcpIPv6::connect_to_server` return 0 if and
only if the non-blocking connect succeeds at once, or it reports `EINPROGRESS`,
the writable wait returns a positive value and the pending socket error read
afterwards is 0; in every other case they return `-1`. -/
theorem C5_connect_result (self4 : TcpIPv4) (self6 : TcpIPv6) (w : World)
    (h4 : 0 < self4.time_out) (h6 : 0 < self6.time_out) :
    ((self4.connect_to_server w).1 = 0 ↔ HandshakeSucceeds w) ∧
      (¬ HandshakeSucceeds w → (self4.connect_to_server w).1 = -1) ∧
      ((self6.connect_to_server w).1 = 0 ↔ HandshakeSucceeds w) ∧
      (¬ HandshakeSucceeds w → (self6.connect_to_server w).1 = -1) :=
  ⟨(tcp4_connect_timed_result self4 w h4).1, (tcp4_connect_timed_result self4 w h4).2,
    (tcp6_connect_timed_result self6 w h6).1, (tcp6_connect_timed_result self6 w h6).2⟩

/-- C5 at a concrete input: descriptor 3, timeout 250 ms, a connect that stays
in progress, a ready wait and no pending error. -/
theorem C5_connect_result_witness :
    ((TcpIPv4.connect_to_server { socket_fd := 3, time_out := 250 } handshakeWorld).1 = 0 ↔
        HandshakeSucceeds handshakeWorld) ∧
      (¬ HandshakeSucceeds handshakeWorld →
        (TcpIPv4.connect_to_server { socket_fd := 3, time_out := 250 } handshakeWorld).1 = -1) ∧
      ((TcpIPv6.connect_to_server { socket_fd := 3, time_out := 250 } handshakeWorld).1 = 0 ↔
        HandshakeSucceeds handshakeWorld) ∧
      (¬ HandshakeSucceeds handshakeWorld →
        (TcpIPv6.connect_to_server { socket_fd := 3, time_out := 250 } handshakeWorld).1 = -1) :=
  C5_connect_result { socket_fd := 3, time_out := 250 } { socket_fd := 3, time_out := 250 }
    handshakeWorld (by decide) (by decide)

theorem tcp4_connect_failure_closes (self : TcpIPv4) (w : World)
    (h : (self.connect_to_server w).1 = -1) :
    (issued w (self.connect_to_server w).2).getLast? = some (Event.close self.socket_fd) := by
  revert h
  simp only [TcpIPv4.connect_to_server, Sys.connect, Sys.fcntl_getfl, Sys.fcntl_setfl,
    Sys.select_write, Sys.getsockopt_so_error, Sys.close, issued]
  by_cases hz : self.time_out = 0
  · by_cases hc : (w.connect 0).1 < 0
    · simp [hz, hc]
    · simp [hz, hc]
  · by_cases hc : (w.connect 0).1 = 0
    · simp [hz, hc]
    · by_cases he : (w.connect 0).2 = EINPROGRESS
      · by_cases hs : w.select 0 ≤ 0
        · simp [hz, hc, he, hs]
        · by_cases hso : (w.so_error 0).getD 0 = 0
          · simp [hz, hc, he, hs, hso]
          · simp [hz, hc, he, hs, hso]
      · simp [hz, hc, he]

theorem tcp6_connect_failure_closes (self : TcpIPv6) (w : World)
    (h : (self.connect_to_server w).1 = -1) :
    (issued w (self.connect_to_server w).2).getLast? = some (Event.close self.socket_fd) := by
  revert h
  simp only [TcpIPv6.connect_to_server, Sys.connect, Sys.fcntl_getfl, Sys.fcntl_setfl,
    Sys.select_write, Sys.getsockopt_so_error, Sys.close, issued]
  by_cases hz : self.time_out = 0
  · by_cases hc : (w.connect 0).1 < 0
    · simp [hz, hc]
    · simp [hz, hc]
  · by_cases hc : (w.connect 0).1 = 0
    · simp [hz, hc]
    · by_cases he : (w.connect 0).2 = EINPROGRESS
      · by_cases hs : w.select 0 ≤ 0
        · simp [hz, hc, he, hs]
        · by_cases hso : (w.so_error 0).getD 0 = 0
          · simp [hz, hc, he, hs, hso]
          · simp [hz, hc, he, hs, hso]
      · simp [hz, hc, he]

/-- C6: for every timeout, zero or positive, and any answers of the operating
system, whenever `TcpIPv4::connect_to_server` or `TcpIPv6::connect_to_server`
returns `-1`, the last call it issued before returning is `close(socket_fd)`. -/
theorem C6_failed_connect_closes (self4 : TcpIPv4) (self6 : TcpIPv6) (w : World) :
    ((self4.connect_to_server w).1 = -1 →
        (issued w (self4.connect_to_server w).2).getLast? = some (Event.close self4.socket_fd)) ∧
      ((self6.connect_to_server w).1 = -1 →
        (issued w (self6.connect_to_server w).2).getLast? = some (Event.close self6.socket_fd)) :=
  ⟨tcp4_connect_failure_closes self4 w, tcp6_connect_failure_closes self6 w⟩

/-- C6 at a concrete input: a connect refused at once, with timeout 0 on the
IPv4 transport and timeout 250 ms on the IPv6 one; both return `-1` after
closing descriptor 3. -/
theorem C6_failed_connect_closes_witness :
    (TcpIPv4.connect_to_server { socket_fd := 3, time_out := 0 } refusedWorld).1 = -1 ∧
      (issued refusedWorld
        (TcpIPv4.connect_to_server { socket_fd := 3, time_out := 0 } refusedWorld).2).getLast? =
        some (Event.close 3) ∧
      (TcpIPv6.connect_to_server { socket_fd := 3, time_out := 250 } refusedWorld).1 = -1 ∧
      (issued refusedWorld
        (TcpIPv6.connect_to_server { socket_fd := 3, time_out := 250 } refusedWorld).2).getLast? =
        some (Event.close 3) :=
  have h4 : (TcpIPv4.connect_to_server { socket_fd := 3, time_out := 0 } refusedWorld).1 = -1 := by
    decide
  have h6 : (TcpIPv6.connect_to_server { socket_fd := 3, time_out := 250 } refusedWorld).1 = -1 := by
    decide
  ⟨h4, (C6_failed_connect_closes { socket_fd := 3, time_out := 0 }
      { socket_fd := 3, time_out := 250 } refusedWorld).1 h4,
    h6, (C6_failed_connect_closes { socket_fd := 3, time_out := 0 }
      { socket_fd := 3, time_out := 250 } refusedWorld).2 h6⟩

theorem send_loop_no_close (self : TcpBase) (data : List Byte) :
    ∀ (n t : Nat) (w : World), data.length - t = n →
      ∃ evs, (self.send_loop data t w).2.trace = w.trace ++ evs ∧
        ∀ e ∈ evs, isClose e = false := by
  intro n
  induction n using Nat.strong_induction_on with
  | _ n ih =>
    intro t w hn
    rw [TcpBase.send_loop]
    by_cases hlt : t < data.length
    · simp only [hlt, if_true]
      have body : ∀ (v : World) (pre : List Event), v.trace = w.trace ++ pre →
          (∀ e ∈ pre, isClose e = false) →
          ∃ evs, (if (Sys.send v self.socket_fd (data.drop t)).1 ≤ 0 then
                    ((-1 : Int), (Sys.send v self.socket_fd (data.drop t)).2)
                  else self.send_loop data
                    (t + (Sys.send v self.socket_fd (data.drop t)).1.toNat)
                    (Sys.send v self.socket_fd (data.drop t)).2).2.trace = w.trace ++ evs ∧
            ∀ e ∈ evs, isClose e = false := by
        intro v pre hv hpre
        by_cases hs : (Sys.send v self.socket_fd (data.drop t)).1 ≤ 0
        · simp only [hs, if_true]
          refine ⟨pre ++ [Event.send self.socket_fd (data.drop t)
            (v.write 0 (data.drop t).length)], by simp [Sys.send, hv], ?_⟩
          intro e he
          rcases List.mem_append.1 he with he | he
          · exact hpre e he
          · rw [List.mem_singleton.1 he]; rfl
        · simp only [hs, if_false]
          have hpos : 1 ≤ (Sys.send v self.socket_fd (data.drop t)).1.toNat := by omega
          obtain ⟨evs, h2, h3⟩ :=
            ih (data.length - (t + (Sys.send v self.socket_fd (data.drop t)).1.toNat))
              (by omega) (t + (Sys.send v self.socket_fd (data.drop t)).1.toNat)
              (Sys.send v self.socket_fd (data.drop t)).2 rfl
          refine ⟨pre ++ Event.send self.socket_fd (data.drop t)
            (v.write 0 (data.drop t).length) :: evs, by rw [h2]; simp [Sys.send, hv], ?_⟩
          intro e he
          rcases List.mem_append.1 he with he | he
          · exact hpre e he
          · rcases List.mem_cons.1 he with he | he
            · rw [he]; rfl
            · exact h3 e he
      rcases wait_writable_cases self.socket_fd self.time_out w with ⟨_, hw⟩ | ⟨_, hw⟩
      · rw [hw]
        simpa using body w [] (by simp) (by simp)
      · rw [hw]
        by_cases hsel : w.select 0 ≤ 0
        · simp only [hsel, decide_True, if_true]
          exact ⟨_, rfl, by simp [isClose]⟩
        · simp only [hsel, decide_False, Bool.false_eq_true, if_false]
          exact body _ _ rfl (by simp [isClose])
    · simp [hlt]

theorem recv_loop_no_close (self : TcpBase) (length : Nat) :
    ∀ (n t : Nat) (res : List Byte) (w : World), length - t = n →
      ∃ evs, (self.recv_loop length res t w).2.trace = w.trace ++ evs ∧
        ∀ e ∈ evs, isClose e = false := by
  intro n
  induction n using Nat.strong_induction_on with
  | _ n ih =>
    intro t res w hn
    rw [TcpBase.recv_loop]
    by_cases hlt : t < length
    · simp only [hlt, if_true]
      have body : ∀ (v : World) (pre : List Event), v.trace = w.trace ++ pre →
          (∀ e ∈ pre, isClose e = false) →
          ∃ evs, (if (Sys.recv v self.socket_fd (min 4096 (length - t))).1.ret ≤ 0 then
                    ((t, res), (Sys.recv v self.socket_fd (min 4096 (length - t))).2)
                  else self.recv_loop length
                    (res ++ (Sys.recv v self.socket_fd (min 4096 (length - t))).1.data.take
                      (Sys.recv v self.socket_fd (min 4096 (length - t))).1.ret.toNat)
                    (t + (Sys.recv v self.socket_fd (min 4096 (length - t))).1.ret.toNat)
                    (Sys.recv v self.socket_fd (min 4096 (length - t))).2).2.trace =
                  w.trace ++ evs ∧
            ∀ e ∈ evs, isClose e = false := by
        intro v pre hv hpre
        by_cases hs : (Sys.recv v self.socket_fd (min 4096 (length - t))).1.ret ≤ 0
        · simp only [hs, if_true]
          refine ⟨pre ++ [Event.recv self.socket_fd (min 4096 (length - t)) (v.read 0).ret
            (v.read 0).data], by simp [Sys.recv, hv], ?_⟩
          intro e he
          rcases List.mem_append.1 he with he | he
          · exact hpre e he
          · rw [List.mem_singleton.1 he]; rfl
        · simp only [hs, if_false]
          have hpos : 1 ≤ (Sys.recv v self.socket_fd (min 4096 (length - t))).1.ret.toNat := by
            omega
          obtain ⟨evs, h2, h3⟩ :=
            ih (length - (t + (Sys.recv v self.socket_fd (min 4096 (length - t))).1.ret.toNat))
              (by omega) (t + (Sys.recv v self.socket_fd (min 4096 (length - t))).1.ret.toNat)
              (res ++ (Sys.recv v self.socket_fd (min 4096 (length - t))).1.data.take
                (Sys.recv v self.socket_fd (min 4096 (length - t))).1.ret.toNat)
              (Sys.recv v self.socket_fd (min 4096 (length - t))).2 rfl
          refine ⟨pre ++ Event.recv self.socket_fd (min 4096 (length - t)) (v.read 0).ret
            (v.read 0).data :: evs, by rw [h2]; simp [Sys.recv, hv], ?_⟩
          intro e he
          rcases List.mem_append.1 he with he | he
          · exact hpre e he
          · rcases List.mem_cons.1 he with he | he
            · rw [he]; rfl
            · exact h3 e he
      rcases wait_readable_cases self.socket_fd self.time_out w with ⟨_, hw⟩ | ⟨_, hw⟩
      · rw [hw]
        simpa using body w [] (by simp) (by simp)
      · rw [hw]
        by_cases hsel : w.select 0 ≤ 0
        · simp only [hsel, decide_True, if_true]
          exact ⟨_, rfl, by simp [isClose]⟩
        · simp only [hsel, decide_False, Bool.false_eq_true, if_false]
          exact body _ _ rfl (by simp [isClose])
    · simp [hlt]

/-- C7 (amended): no transfer operation issues an OS `close`, whether it
succeeds or returns `-1`: among the calls issued by `TcpBase::send_data`,
`TcpBase::recv_data` and the datagram and message `send_data` and `recv_data`
there is no `close` (and none of them changes `socket_fd`), so after a failed
transfer the handle is still open and owned by the object. -/
theorem C7_transfer_never_closes (tcp : TcpBase) (udp : UdpBase) (sctp : SctpBase)
    (data old : List Byte) (length : Nat) (dest src : SockAddr) (sn : Int) (sno : Option Int)
    (w : World) :
    (∀ e ∈ issued w (tcp.send_data data w).2, isClose e = false) ∧
      (∀ e ∈ issued w (tcp.recv_data old length w).2, isClose e = false) ∧
      (∀ e ∈ issued w (udp.send_data data dest w).2, isClose e = false) ∧
      (∀ e ∈ issued w (udp.recv_data old src w).2, isClose e = false) ∧
      (∀ e ∈ issued w (sctp.send_data data dest sn w).2, isClose e = false) ∧
      (∀ e ∈ issued w (sctp.recv_data old src sno w).2, isClose e = false) := by
  refine ⟨?_, ?_, ?_, ?_, ?_, ?_⟩
  · obtain ⟨evs, h1, h2⟩ := send_loop_no_close tcp data (data.length - 0) 0 w rfl
    rw [TcpBase.send_data, issued_of_trace _ _ _ h1]
    exact h2
  · exact recv_data_issued_all (fun e => isClose e = false) tcp old length w
      (fun v _ => recv_loop_no_close tcp length (length - 0) 0 [] v rfl)
  · rcases wait_writable_cases udp.socket_fd udp.time_out w with ⟨_, hw⟩ | ⟨_, hw⟩ <;>
      by_cases hs : w.select 0 ≤ 0 <;>
      simp [UdpBase.send_data, hw, hs, Sys.sendto, issued, isClose]
  · rcases wait_readable_cases udp.socket_fd udp.time_out w with ⟨_, hw⟩ | ⟨_, hw⟩ <;>
      by_cases hs : w.select 0 ≤ 0 <;> by_cases hr : (w.read 0).ret ≤ 0 <;>
      simp [UdpBase.recv_data, hw, hs, hr, Sys.recvfrom, issued, isClose]
  · rcases wait_writable_cases sctp.socket_fd sctp.time_out w with ⟨_, hw⟩ | ⟨_, hw⟩ <;>
      by_cases hs : w.select 0 ≤ 0 <;>
      simp [SctpBase.send_data, hw, hs, Sys.sctp_sendmsg, issued, isClose]
  · rcases wait_readable_cases sctp.socket_fd sctp.time_out w with ⟨_, hw⟩ | ⟨_, hw⟩ <;>
      by_cases hs : w.select 0 ≤ 0 <;> by_cases hr : (w.read 0).ret ≤ 0 <;>
      simp [SctpBase.recv_data, hw, hs, hr, Sys.sctp_recvmsg, issued, isClose]

/-- C7 as stated fails: on descriptor 3 with timeout 5 ms, `TcpBase::send_data`
returns `-1` after a wait that times out, and again after a `send` that fails,
and `UdpBase::recv_data` returns `-1` after a zero read; in each case the calls
issued are listed and `close(3)` is not among them. -/
theorem C7_counterexample :
    ((sampleTcp 5).send_data [1, 2] (selectWorld 0)).1 = -1 ∧
      issued (selectWorld 0) ((sampleTcp 5).send_data [1, 2] (selectWorld 0)).2 =
        [Event.select_write 3 0 5000 0] ∧
      ((sampleTcp 5).send_data [1, 2] brokenWorld).1 = -1 ∧
      issued brokenWorld ((sampleTcp 5).send_data [1, 2] brokenWorld).2 =
        [Event.select_write 3 0 5000 1, Event.send 3 [1, 2] (-1)] ∧
      (UdpBase.recv_data ⟨3, 5⟩ [] [] brokenWorld).1.ret = -1 ∧
      issued brokenWorld (UdpBase.recv_data ⟨3, 5⟩ [] [] brokenWorld).2 =
        [Event.select_read 3 0 5000 1, Event.recvfrom 3 65536 0 [] none] := by
  refine ⟨?_, ?_, ?_, ?_, ?_, ?_⟩
  · simp [TcpBase.send_data, TcpBase.send_loop, sampleTcp, wait_writable, Sys.select_write,
      selectWorld, constWorld]
  · simp [TcpBase.send_data, TcpBase.send_loop, sampleTcp, wait_writable, Sys.select_write,
      selectWorld, constWorld, issued]
  · simp [TcpBase.send_data, TcpBase.send_loop, sampleTcp, wait_writable, Sys.select_write,
      Sys.send, brokenWorld, constWorld]
  · simp [TcpBase.send_data, TcpBase.send_loop, sampleTcp, wait_writable, Sys.select_write,
      Sys.send, brokenWorld, constWorld, issued]
  · simp [UdpBase.recv_data, wait_readable, Sys.select_read, Sys.recvfrom, brokenWorld,
      constWorld, peerClosed]
  · simp [UdpBase.recv_data, wait_readable, Sys.select_read, Sys.recvfrom, brokenWorld,
      constWorld, peerClosed, issued]

/-- C8 fails on the code.  A `TcpIPv4` is initialised (`socket` returns 3), then
`set_address` is given a text `inet_pton` rejects, then the object is
destroyed: `close(3)` is issued twice, once by `set_address` and once by the
destructor.  Likewise after a refused `connect_to_server`. -/
theorem C8_double_close_on_failure_paths :
    (TcpIPv4.lifetime [TcpOp.initTcp, TcpOp.set_address "not-an-address" 80]
        badAddressWorld).trace =
      [Event.socket AF_INET 3, Event.inet_pton AF_INET "not-an-address" 0, Event.close 3,
        Event.close 3] ∧
    closeCount 3 (TcpIPv4.lifetime [TcpOp.initTcp, TcpOp.set_address "not-an-address" 80]
        badAddressWorld).trace = 2 ∧
    (TcpIPv4.lifetime [TcpOp.initTcp, TcpOp.set_address "127.0.0.1" 80,
        TcpOp.connect_to_server] refusedWorld).trace =
      [Event.socket AF_INET 3, Event.inet_pton AF_INET "127.0.0.1" 1,
        Event.connect 3 (-1) 111, Event.close 3, Event.close 3] ∧
    closeCount 3 (TcpIPv4.lifetime [TcpOp.initTcp, TcpOp.set_address "127.0.0.1" 80,
        TcpOp.connect_to_server] refusedWorld).trace = 2 := by
  refine ⟨by decide, by decide, by decide, by decide⟩

/-- C9: on each of `TcpBase`, `UdpBase` and `SctpBase`, `close_connection`
leaves `socket_fd = -1`, the destructor issues no call when `socket_fd` is
`-1`, and an explicit `close_connection` followed by destruction issues exactly
one call, `close(h)` on the handle `h` the object held. -/
theorem C9_close_then_destroy_closes_once (tcp : TcpBase) (udp : UdpBase) (sctp : SctpBase)
    (w : World) :
    ((tcp.close_connection w).1.socket_fd = -1 ∧
      (∀ (t : TcpBase) (v : World), t.socket_fd = -1 → issued v (t.destructor v) = []) ∧
      issued w ((tcp.close_connection w).1.destructor (tcp.close_connection w).2) =
        [Event.close tcp.socket_fd]) ∧
    ((udp.close_connection w).1.socket_fd = -1 ∧
      (∀ (u : UdpBase) (v : World), u.socket_fd = -1 → issued v (u.destructor v) = []) ∧
      issued w ((udp.close_connection w).1.destructor (udp.close_connection w).2) =
        [Event.close udp.socket_fd]) ∧
    ((sctp.close_connection w).1.socket_fd = -1 ∧
      (∀ (s : SctpBase) (v : World), s.socket_fd = -1 → issued v (s.destructor v) = []) ∧
      issued w ((sctp.close_connection w).1.destructor (sctp.close_connection w).2) =
        [Event.close sctp.socket_fd]) := by
  refine ⟨⟨rfl, ?_, ?_⟩, ⟨rfl, ?_, ?_⟩, ⟨rfl, ?_, ?_⟩⟩
  · intro t v h; simp [TcpBase.destructor, h, issued]
  · simp [TcpBase.destructor, TcpBase.close_connection, Sys.close, issued]
  · intro u v h; simp [UdpBase.destructor, h, issued]
  · simp [UdpBase.destructor, UdpBase.close_connection, Sys.close, issued]
  · intro s v h; simp [SctpBase.destructor, h, issued]
  · simp [SctpBase.destructor, SctpBase.close_connection, Sys.close, issued]

theorem tcp4_connect_flag_writes (self : TcpIPv4) (w : World) :
    (0 < self.time_out → (self.connect_to_server w).1 = 0 →
        (issued w (self.connect_to_server w).2).head? =
            some (Event.fcntl_getfl self.socket_fd (w.getfl 0)) ∧
          setflWrites self.socket_fd (issued w (self.connect_to_server w).2) =
            [setNonblock (w.getfl 0), w.getfl 0]) ∧
      (self.time_out = 0 → ∀ e ∈ issued w (self.connect_to_server w).2, isFcntl e = false) := by
  simp only [TcpIPv4.connect_to_server, Sys.connect, Sys.fcntl_getfl, Sys.fcntl_setfl,
    Sys.select_write, Sys.getsockopt_so_error, Sys.close, issued]
  constructor
  · intro hms
    have hz : self.time_out ≠ 0 := by omega
    by_cases hc : (w.connect 0).1 = 0
    · simp [hz, hc, setflWrites]
    · by_cases he : (w.connect 0).2 = EINPROGRESS
      · by_cases hs : w.select 0 ≤ 0
        · simp [hz, hc, he, hs]
        · by_cases hso : (w.so_error 0).getD 0 = 0
          · simp [hz, hc, he, hs, hso, setflWrites]
          · simp [hz, hc, he, hs, hso]
      · simp [hz, hc, he]
  · intro hz
    by_cases hc : (w.connect 0).1 < 0
    · simp [hz, hc, isFcntl]
    · simp [hz, hc, isFcntl]

theorem tcp6_connect_flag_writes (self : TcpIPv6) (w : World) :
    (0 < self.time_out → (self.connect_to_server w).1 = 0 →
        (issued w (self.connect_to_server w).2).head? =
            some (Event.fcntl_getfl self.socket_fd (w.getfl 0)) ∧
          setflWrites self.socket_fd (issued w (self.connect_to_server w).2) =
            [setNonblock (w.getfl 0), w.getfl 0]) ∧
      (self.time_out = 0 → ∀ e ∈ issued w (self.connect_to_server w).2, isFcntl e = false) := by
  simp only [TcpIPv6.connect_to_server, Sys.connect, Sys.fcntl_getfl, Sys.fcntl_setfl,
    Sys.select_write, Sys.getsockopt_so_error, Sys.close, issued]
  constructor
  · intro hms
    have hz : self.time_out ≠ 0 := by omega
    by_cases hc : (w.connect 0).1 = 0
    · simp [hz, hc, setflWrites]
    · by_cases he : (w.connect 0).2 = EINPROGRESS
      · by_cases hs : w.select 0 ≤ 0
        · simp [hz, hc, he, hs]
        · by_cases hso : (w.so_error 0).getD 0 = 0
          · simp [hz, hc, he, hs, hso, setflWrites]
          · simp [hz, hc, he, hs, hso]
      · simp [hz, hc, he]
  · intro hz
    by_cases hc : (w.connect 0).1 < 0
    · simp [hz, hc, isFcntl]
    · simp [hz, hc, isFcntl]

/-- C10: when `connect_to_server` (IPv4 or IPv6) with a positive timeout
returns 0, the first call it issued read the flag word with `F_GETFL`, and its
`F_SETFL` writes on the handle are exactly two: that word with `O_NONBLOCK`
added, and last the word as read, on both success paths.  With `time_out = 0`
it issues no `fcntl` call at all. -/
theorem C10_connect_restores_flags (self4 : TcpIPv4) (self6 : TcpIPv6) (w : World) :
    ((0 < self4.time_out → (self4.connect_to_server w).1 = 0 →
        (issued w (self4.connect_to_server w).2).head? =
            some (Event.fcntl_getfl self4.socket_fd (w.getfl 0)) ∧
          setflWrites self4.socket_fd (issued w (self4.connect_to_server w).2) =
            [setNonblock (w.getfl 0), w.getfl 0]) ∧
      (self4.time_out = 0 →
        ∀ e ∈ issued w (self4.connect_to_server w).2, isFcntl e = false)) ∧
    ((0 < self6.time_out → (self6.connect_to_server w).1 = 0 →
        (issued w (self6.connect_to_server w).2).head? =
            some (Event.fcntl_getfl self6.socket_fd (w.getfl 0)) ∧
          setflWrites self6.socket_fd (issued w (self6.connect_to_server w).2) =
            [setNonblock (w.getfl 0), w.getfl 0]) ∧
      (self6.time_out = 0 →
        ∀ e ∈ issued w (self6.connect_to_server w).2, isFcntl e = false)) :=
  ⟨tcp4_connect_flag_writes self4 w, tcp6_connect_flag_writes self6 w⟩

/-- C10 at a concrete input: descriptor 3, timeout 250 ms, `F_GETFL` returns 2,
the connect completes after the wait; the flag writes are `2 | O_NONBLOCK`, then 2. -/
theorem C10_connect_restores_flags_witness :
    (TcpIPv4.connect_to_server { socket_fd := 3, time_out := 250 } handshakeWorld).1 = 0 ∧
      setflWrites 3 (issued handshakeWorld
        (TcpIPv4.connect_to_server { socket_fd := 3, time_out := 250 } handshakeWorld).2) =
        [setNonblock 2, 2] :=
  have h0 : (TcpIPv4.connect_to_server { socket_fd := 3, time_out := 250 } handshakeWorld).1 = 0 := by
    decide
  ⟨h0, ((C10_connect_restores_flags { socket_fd := 3, time_out := 250 }
    { socket_fd := 3, time_out := 250 } handshakeWorld).1.1 (by decide) h0).2⟩

/-- C11 (amended): when the wait (if any) reports ready, the datagram and the
message `send_data` return the count `c` reported by their single sending call,
converted to `int`; a short count `0 ≤ c < n` below `2^31` is handed to the
caller as `c` itself, which is not `-1`.  For a count `c` within the `int`
range, each of them returns `-1` exactly when its wait (positive timeout)
returns `≤ 0` or `c = -1`. -/
theorem C11_short_send_count_returned (udp : UdpBase) (sctp : SctpBase) (data : List Byte)
    (dest : SockAddr) (sn : Int) (w : World) (c : Int) (hc : w.write 0 data.length = c) :
    ((udp.time_out = 0 ∨ 0 < w.select 0) → (udp.send_data data dest w).1 = toInt32 c) ∧
      ((sctp.time_out = 0 ∨ 0 < w.select 0) → (sctp.send_data data dest sn w).1 = toInt32 c) ∧
      (0 ≤ c → c < data.length → c < 2 ^ 31 →
        ((udp.time_out = 0 ∨ 0 < w.select 0) → (udp.send_data data dest w).1 = c) ∧
        ((sctp.time_out = 0 ∨ 0 < w.select 0) → (sctp.send_data data dest sn w).1 = c) ∧
        c ≠ -1) ∧
      (-2 ^ 31 ≤ c → c < 2 ^ 31 →
        ((udp.send_data data dest w).1 = -1 ↔
          (0 < udp.time_out ∧ w.select 0 ≤ 0) ∨ c = -1) ∧
        ((sctp.send_data data dest sn w).1 = -1 ↔
          (0 < sctp.time_out ∧ w.select 0 ≤ 0) ∨ c = -1)) := by
  have h1 : (udp.time_out = 0 ∨ 0 < w.select 0) →
      (udp.send_data data dest w).1 = toInt32 c := by
    intro hu
    rcases wait_writable_cases udp.socket_fd udp.time_out w with ⟨_, hw⟩ | ⟨hp, hw⟩
    · simp [UdpBase.send_data, hw, Sys.sendto, hc]
    · have hsel : ¬ w.select 0 ≤ 0 := by omega
      simp [UdpBase.send_data, hw, hsel, Sys.sendto, hc]
  have h2 : (sctp.time_out = 0 ∨ 0 < w.select 0) →
      (sctp.send_data data dest sn w).1 = toInt32 c := by
    intro hs
    rcases wait_writable_cases sctp.socket_fd sctp.time_out w with ⟨_, hw⟩ | ⟨hp, hw⟩
    · simp [SctpBase.send_data, hw, Sys.sctp_sendmsg, hc]
    · have hsel : ¬ w.select 0 ≤ 0 := by omega
      simp [SctpBase.send_data, hw, hsel, Sys.sctp_sendmsg, hc]
  have h3 : 0 < udp.time_out → w.select 0 ≤ 0 → (udp.send_data data dest w).1 = -1 := by
    intro hp hsel
    simp [UdpBase.send_data, wait_writable, hp, hsel, Sys.select_write]
  have h4 : 0 < sctp.time_out → w.select 0 ≤ 0 → (sctp.send_data data dest sn w).1 = -1 := by
    intro hp hsel
    simp [SctpBase.send_data, wait_writable, hp, hsel, Sys.select_write]
  refine ⟨h1, h2, fun h0 _ h31 => ?_, fun hlo hhi => ?_⟩
  · have hcast : toInt32 c = c := by unfold toInt32; omega
    exact ⟨fun hu => by rw [h1 hu, hcast], fun hs => by rw [h2 hs, hcast], by omega⟩
  · have hcast : toInt32 c = c := by unfold toInt32; omega
    constructor
    · by_cases hfail : 0 < udp.time_out ∧ w.select 0 ≤ 0
      · exact ⟨fun _ => Or.inl hfail, fun _ => h3 hfail.1 hfail.2⟩
      · have hu : udp.time_out = 0 ∨ 0 < w.select 0 := by omega
        rw [h1 hu, hcast]
        exact ⟨fun h => Or.inr h, fun h => h.resolve_left hfail⟩
    · by_cases hfail : 0 < sctp.time_out ∧ w.select 0 ≤ 0
      · exact ⟨fun _ => Or.inl hfail, fun _ => h4 hfail.1 hfail.2⟩
      · have hs : sctp.time_out = 0 ∨ 0 < w.select 0 := by omega
        rw [h2 hs, hcast]
        exact ⟨fun h => Or.inr h, fun h => h.resolve_left hfail⟩

/-- C11 (amended) at a concrete input: three bytes offered, the sending call
reports one byte sent, and `1` is what both `send_data` return. -/
theorem C11_short_send_count_returned_witness :
    (UdpBase.send_data ⟨3, 5⟩ [1, 2, 3] [] oneByteWorld).1 = 1 ∧
      (SctpBase.send_data ⟨3, 5⟩ [1, 2, 3] [] 0 oneByteWorld).1 = 1 ∧ (1 : Int) ≠ -1 :=
  have h := (C11_short_send_count_returned ⟨3, 5⟩ ⟨3, 5⟩ [1, 2, 3] [] 0 oneByteWorld 1
    rfl).2.2.1 (by decide) (by decide) (by decide)
  ⟨h.1 (Or.inr (by decide)), h.2.1 (Or.inr (by decide)), h.2.2⟩

/-- C11 as stated fails: with a 3-byte payload and a sending call that reports
1 byte sent, `UdpBase::send_data` and `SctpBase::send_data` return 1, not `-1`. -/
theorem C11_counterexample :
    oneByteWorld.write 0 ([1, 2, 3] : List Byte).length = 1 ∧
      (UdpBase.send_data ⟨3, 5⟩ [1, 2, 3] [] oneByteWorld).1 = 1 ∧
      (SctpBase.send_data ⟨3, 0⟩ [1, 2, 3] [] 0 oneByteWorld).1 = 1 := by
  refine ⟨rfl, by decide, by decide⟩

theorem udp_recv_one_datagram (self : UdpBase) (old : List Byte) (src p a : SockAddr)
    (w : World) (hret : (w.read 0).ret = (p.length : Int)) (hdata : (w.read 0).data = p)
    (hsrc : (w.read 0).src = some a) (hready : self.time_out = 0 ∨ 0 < w.select 0)
    (h1 : 1 ≤ p.length) (h2 : p.length < 65536) :
    (self.recv_data old src w).1 = ⟨(p.length : Int), p, a, none⟩ := by
  have hpos : ¬ ((p.length : Int) ≤ 0) := by omega
  have hcast : toInt32 (p.length : Int) = p.length := toInt32_of_lt _ (by omega)
  rcases wait_readable_cases self.socket_fd self.time_out w with ⟨_, hw⟩ | ⟨hp, hw⟩
  · simp [UdpBase.recv_data, hw, Sys.recvfrom, hret, hdata, hsrc, hpos, hcast]
  · have hsel : ¬ w.select 0 ≤ 0 := by omega
    simp [UdpBase.recv_data, hw, hsel, Sys.recvfrom, hret, hdata, hsrc, hpos, hcast]

/-- C12 (amended): a datagram `p` with `1 ≤ |p| < 65536` that the operating
system delivers with source address `a` is handed over by one
`UdpBase::recv_data` call (no timeout, or the wait reporting ready), also
through `UdpServerIPv4::recv_data` and `UdpServerIPv6::recv_data`: the call
returns `|p|`, `result` is `p` whatever it held before, and the source-address
output is `a`. -/
theorem C12_datagram_received (self : UdpBase) (srv4 : UdpServerIPv4) (srv6 : UdpServerIPv6)
    (old : List Byte) (src p a : SockAddr) (w : World)
    (hret : (w.read 0).ret = (p.length : Int)) (hdata : (w.read 0).data = p)
    (hsrc : (w.read 0).src = some a) (hready : self.time_out = 0 ∨ 0 < w.select 0)
    (hready4 : srv4.socket.time_out = 0 ∨ 0 < w.select 0)
    (hready6 : srv6.socket.time_out = 0 ∨ 0 < w.select 0)
    (h1 : 1 ≤ p.length) (h2 : p.length < 65536) :
    (self.recv_data old src w).1 = ⟨(p.length : Int), p, a, none⟩ ∧
      (srv4.recv_data old src w).1 = ⟨(p.length : Int), p, a, none⟩ ∧
      (srv6.recv_data old src w).1 = ⟨(p.length : Int), p, a, none⟩ :=
  ⟨udp_recv_one_datagram self old src p a w hret hdata hsrc hready h1 h2,
    udp_recv_one_datagram srv4.socket.toUdpBase old src p a w hret hdata hsrc hready4 h1 h2,
    udp_recv_one_datagram srv6.socket.toUdpBase old src p a w hret hdata hsrc hready6 h1 h2⟩

/-- C12 (amended) at a concrete input: the datagram `[7, 8, 9]` from
`[2, 0, 0, 53, 127, 0, 0, 1]`, received with timeout 5 ms into a string that held `[1]`. -/
theorem C12_datagram_received_witness :
    (UdpBase.recv_data ⟨3, 5⟩ [1] [] datagramWorld).1 =
        ⟨3, [7, 8, 9], [2, 0, 0, 53, 127, 0, 0, 1], none⟩ ∧
      (UdpServerIPv4.recv_data {} [1] [] datagramWorld).1 =
        ⟨3, [7, 8, 9], [2, 0, 0, 53, 127, 0, 0, 1], none⟩ ∧
      (UdpServerIPv6.recv_data {} [1] [] datagramWorld).1 =
        ⟨3, [7, 8, 9], [2, 0, 0, 53, 127, 0, 0, 1], none⟩ :=
  C12_datagram_received ⟨3, 5⟩ {} {} [1] [] [7, 8, 9] [2, 0, 0, 53, 127, 0, 0, 1] datagramWorld
    rfl rfl rfl (Or.inr (by decide)) (Or.inl rfl) (Or.inl rfl) (by decide) (by decide)

/-- C12 as stated fails at `|p| = 0`: the operating system delivers an empty
datagram from `[2, 0, 0, 53, 127, 0, 0, 1]` (the receiving call returns 0), and
`UdpBase::recv_data` returns `-1`, not the success value 0. -/
theorem C12_counterexample :
    (emptyDatagramWorld.read 0).ret = (([] : List Byte).length : Int) ∧
      (emptyDatagramWorld.read 0).data = [] ∧
      (emptyDatagramWorld.read 0).src = some [2, 0, 0, 53, 127, 0, 0, 1] ∧
      (UdpBase.recv_data ⟨3, 0⟩ [] [] emptyDatagramWorld).1.ret = -1 ∧
      (UdpServerIPv4.recv_data {} [] [] emptyDatagramWorld).1.ret = -1 := by
  refine ⟨rfl, rfl, rfl, by decide, by decide⟩

/-- C15 (amended): for every timeout and any answers of the operating system,
`SctpIPv4::connect_to_server` and `SctpIPv6::connect_to_server` issue exactly
one call, a `connect` on the handle, and return its result unchanged; `time_out`
is not consulted and no flag change, wait, pending-error read or `close` is
issued.  The result is that of `TcpIPv4::connect_to_server` when the stream
transport has `time_out = 0` and `connect` returns 0 or `-1`. -/
theorem C15_sctp_connect_is_single_connect (s4 : SctpIPv4) (s6 : SctpIPv6) (w : World) :
    (s4.connect_to_server w).1 = (w.connect 0).1 ∧
      issued w (s4.connect_to_server w).2 =
        [Event.connect s4.socket_fd (w.connect 0).1 (w.connect 0).2] ∧
      (s6.connect_to_server w).1 = (w.connect 0).1 ∧
      issued w (s6.connect_to_server w).2 =
        [Event.connect s6.socket_fd (w.connect 0).1 (w.connect 0).2] ∧
      (∀ t : TcpIPv4, t.time_out = 0 → ((w.connect 0).1 = 0 ∨ (w.connect 0).1 = -1) →
        (t.connect_to_server w).1 = (s4.connect_to_server w).1 ∧
        (t.connect_to_server w).1 = (s6.connect_to_server w).1) := by
  refine ⟨rfl, by simp [SctpIPv4.connect_to_server, Sys.connect, issued], rfl,
    by simp [SctpIPv6.connect_to_server, Sys.connect, issued], ?_⟩
  intro t ht hc
  rcases hc with hc | hc <;>
    simp [TcpIPv4.connect_to_server, SctpIPv4.connect_to_server, SctpIPv6.connect_to_server,
      Sys.connect, Sys.close, ht, hc]

/-- C15 as stated fails.  With timeout 250 ms on descriptor 3 and a `connect`
that answers `-1` with `EINPROGRESS` (then a ready wait and no pending error),
the stream transport returns 0 and the message transport `-1`; and for a
refused `connect` the stream transport issues four calls (flag read, flag
write, connect, close) where the message transport issues the connect alone. -/
theorem C15_counterexample :
    (TcpIPv4.connect_to_server { socket_fd := 3, time_out := 250 } handshakeWorld).1 = 0 ∧
      (SctpIPv4.connect_to_server { socket_fd := 3, time_out := 250 } handshakeWorld).1 = -1 ∧
      issued refusedWorld
          (TcpIPv4.connect_to_server { socket_fd := 3, time_out := 250 } refusedWorld).2 =
        [Event.fcntl_getfl 3 2, Event.fcntl_setfl 3 (setNonblock 2), Event.connect 3 (-1) 111,
          Event.close 3] ∧
      issued refusedWorld
          (SctpIPv4.connect_to_server { socket_fd := 3, time_out := 250 } refusedWorld).2 =
        [Event.connect 3 (-1) 111] := by
  refine ⟨by decide, by decide, by decide, by decide⟩

theorem send_loop_events (P : Event → Prop) (self : TcpBase) (data : List Byte)
    (hsel : ∀ r, P (Event.select_write self.socket_fd (self.time_out / 1000)
      (self.time_out % 1000 * 1000) r))
    (hsend : ∀ buf r, P (Event.send self.socket_fd buf r)) :
    ∀ (n t : Nat) (w : World), data.length - t = n →
      ∃ evs, (self.send_loop data t w).2.trace = w.trace ++ evs ∧ ∀ e ∈ evs, P e := by
  intro n
  induction n using Nat.strong_induction_on with
  | _ n ih =>
    intro t w hn
    rw [TcpBase.send_loop]
    by_cases hlt : t < data.length
    · simp only [hlt, if_true]
      have body : ∀ (v : World) (pre : List Event), v.trace = w.trace ++ pre →
          (∀ e ∈ pre, P e) →
          ∃ evs, (if (Sys.send v self.socket_fd (data.drop t)).1 ≤ 0 then
                    ((-1 : Int), (Sys.send v self.socket_fd (data.drop t)).2)
                  else self.send_loop data
                    (t + (Sys.send v self.socket_fd (data.drop t)).1.toNat)
                    (Sys.send v self.socket_fd (data.drop t)).2).2.trace = w.trace ++ evs ∧
            ∀ e ∈ evs, P e := by
        intro v pre hv hpre
        by_cases hs : (Sys.send v self.socket_fd (data.drop t)).1 ≤ 0
        · simp only [hs, if_true]
          refine ⟨pre ++ [Event.send self.socket_fd (data.drop t)
            (v.write 0 (data.drop t).length)], by simp [Sys.send, hv], ?_⟩
          intro e he
          rcases List.mem_append.1 he with he | he
          · exact hpre e he
          · rw [List.mem_singleton.1 he]; exact hsend _ _
        · simp only [hs, if_false]
          have hpos : 1 ≤ (Sys.send v self.socket_fd (data.drop t)).1.toNat := by omega
          obtain ⟨evs, h2, h3⟩ :=
            ih (data.length - (t + (Sys.send v self.socket_fd (data.drop t)).1.toNat))
              (by omega) (t + (Sys.send v self.socket_fd (data.drop t)).1.toNat)
              (Sys.send v self.socket_fd (data.drop t)).2 rfl
          refine ⟨pre ++ Event.send self.socket_fd (data.drop t)
            (v.write 0 (data.drop t).length) :: evs, by rw [h2]; simp [Sys.send, hv], ?_⟩
          intro e he
          rcases List.mem_append.1 he with he | he
          · exact hpre e he
          · rcases List.mem_cons.1 he with he | he
            · rw [he]; exact hsend _ _
            · exact h3 e he
      rcases wait_writable_cases self.socket_fd self.time_out w with ⟨_, hw⟩ | ⟨_, hw⟩
      · rw [hw]
        simpa using body w [] (by simp) (by simp)
      · rw [hw]
        by_cases hsel0 : w.select 0 ≤ 0
        · simp only [hsel0, decide_True, if_true]
          exact ⟨_, rfl, fun e he => by rw [List.mem_singleton.1 he]; exact hsel _⟩
        · simp only [hsel0, decide_False, Bool.false_eq_true, if_false]
          exact body _ _ rfl (fun e he => by rw [List.mem_singleton.1 he]; exact hsel _)
    · simp [hlt]

theorem recv_loop_events (P : Event → Prop) (self : TcpBase) (length : Nat)
    (hsel : ∀ r, P (Event.select_read self.socket_fd (self.time_out / 1000)
      (self.time_out % 1000 * 1000) r))
    (hrecv : ∀ len r d, P (Event.recv self.socket_fd len r d)) :
    ∀ (n t : Nat) (res : List Byte) (w : World), length - t = n →
      ∃ evs, (self.recv_loop length res t w).2.trace = w.trace ++ evs ∧ ∀ e ∈ evs, P e := by
  intro n
  induction n using Nat.strong_induction_on with
  | _ n ih =>
    intro t res w hn
    rw [TcpBase.recv_loop]
    by_cases hlt : t < length
    · simp only [hlt, if_true]
      have body : ∀ (v : World) (pre : List Event), v.trace = w.trace ++ pre →
          (∀ e ∈ pre, P e) →
          ∃ evs, (if (Sys.recv v self.socket_fd (min 4096 (length - t))).1.ret ≤ 0 then
                    ((t, res), (Sys.recv v self.socket_fd (min 4096 (length - t))).2)
                  else self.recv_loop length
                    (res ++ (Sys.recv v self.socket_fd (min 4096 (length - t))).1.data.take
                      (Sys.recv v self.socket_fd (min 4096 (length - t))).1.ret.toNat)
                    (t + (Sys.recv v self.socket_fd (min 4096 (length - t))).1.ret.toNat)
                    (Sys.recv v self.socket_fd (min 4096 (length - t))).2).2.trace =
                  w.trace ++ evs ∧
            ∀ e ∈ evs, P e := by
        intro v pre hv hpre
        by_cases hs : (Sys.recv v self.socket_fd (min 4096 (length - t))).1.ret ≤ 0
        · simp only [hs, if_true]
          refine ⟨pre ++ [Event.recv self.socket_fd (min 4096 (length - t)) (v.read 0).ret
            (v.read 0).data], by simp [Sys.recv, hv], ?_⟩
          intro e he
          rcases List.mem_append.1 he with he | he
          · exact hpre e he
          · rw [List.mem_singleton.1 he]; exact hrecv _ _ _
        · simp only [hs, if_false]
          have hpos : 1 ≤ (Sys.recv v self.socket_fd (min 4096 (length - t))).1.ret.toNat := by
            omega
          obtain ⟨evs, h2, h3⟩ :=
            ih (length - (t + (Sys.recv v self.socket_fd (min 4096 (length - t))).1.ret.toNat))
              (by omega) (t + (Sys.recv v self.socket_fd (min 4096 (length - t))).1.ret.toNat)
              (res ++ (Sys.recv v self.socket_fd (min 4096 (length - t))).1.data.take
                (Sys.recv v self.socket_fd (min 4096 (length - t))).1.ret.toNat)
              (Sys.recv v self.socket_fd (min 4096 (length - t))).2 rfl
          refine ⟨pre ++ Event.recv self.socket_fd (min 4096 (length - t)) (v.read 0).ret
            (v.read 0).data :: evs, by rw [h2]; simp [Sys.recv, hv], ?_⟩
          intro e he
          rcases List.mem_append.1 he with he | he
          · exact hpre e he
          · rcases List.mem_cons.1 he with he | he
            · rw [he]; exact hrecv _ _ _
            · exact h3 e he
      rcases wait_readable_cases self.socket_fd self.time_out w with ⟨_, hw⟩ | ⟨_, hw⟩
      · rw [hw]
        simpa using body w [] (by simp) (by simp)
      · rw [hw]
        by_cases hsel0 : w.select 0 ≤ 0
        · simp only [hsel0, decide_True, if_true]
          exact ⟨_, rfl, fun e he => by rw [List.mem_singleton.1 he]; exact hsel _⟩
        · simp only [hsel0, decide_False, Bool.false_eq_true, if_false]
          exact body _ _ rfl (fun e he => by rw [List.mem_singleton.1 he]; exact hsel _)
    · simp [hlt]

theorem timeval_exact (ms : Nat) (h64 : ms < 2 ^ 64) :
    ms / 1000 * 1000000 + ms % 1000 * 1000 = ms * 1000 ∧ ms % 1000 * 1000 < 1000000 ∧
      ms / 1000 < 2 ^ 63 := by
  refine ⟨by omega, by omega, by omega⟩

/-- C17: for every timeout `0 < ms < 2^64` the readiness wait of the sending
and receiving paths issues one `select` whose deadline is `tv_sec = ms / 1000`,
`tv_usec = (ms % 1000) * 1000`; these satisfy `tv_sec * 1000000 + tv_usec =
ms * 1000` and `tv_usec < 1000000`, and `tv_sec < 2^63`, so nothing in the
computation leaves its integer type.  Every `select` issued by the stream,
datagram and message `send_data` and `recv_data` and by the stream
`connect_to_server` carries exactly this deadline. -/
theorem C17_wait_deadline_exact (fd : Int) (ms : Nat) (w : World) (h0 : 0 < ms)
    (h64 : ms < 2 ^ 64) :
    issued w (wait_writable fd ms w).2 =
        [Event.select_write fd (ms / 1000) (ms % 1000 * 1000) (w.select 0)] ∧
      issued w (wait_readable fd ms w).2 =
        [Event.select_read fd (ms / 1000) (ms % 1000 * 1000) (w.select 0)] ∧
      (ms / 1000 * 1000000 + ms % 1000 * 1000 = ms * 1000 ∧ ms % 1000 * 1000 < 1000000 ∧
        ms / 1000 < 2 ^ 63) ∧
      (∀ data, ∀ e ∈ issued w (TcpBase.send_data ⟨fd, ms⟩ data w).2, deadlineExact ms e) ∧
      (∀ old length, ∀ e ∈ issued w (TcpBase.recv_data ⟨fd, ms⟩ old length w).2,
        deadlineExact ms e) ∧
      (∀ data dest, ∀ e ∈ issued w (UdpBase.send_data ⟨fd, ms⟩ data dest w).2,
        deadlineExact ms e) ∧
      (∀ old src, ∀ e ∈ issued w (UdpBase.recv_data ⟨fd, ms⟩ old src w).2,
        deadlineExact ms e) ∧
      (∀ data dest sn, ∀ e ∈ issued w (SctpBase.send_data ⟨fd, ms⟩ data dest sn w).2,
        deadlineExact ms e) ∧
      (∀ old src sn, ∀ e ∈ issued w (SctpBase.recv_data ⟨fd, ms⟩ old src sn w).2,
        deadlineExact ms e) ∧
      (∀ addr, ∀ e ∈ issued w (TcpIPv4.connect_to_server ⟨⟨fd, ms⟩, addr⟩ w).2,
        deadlineExact ms e) ∧
      (∀ addr, ∀ e ∈ issued w (TcpIPv6.connect_to_server ⟨⟨fd, ms⟩, addr⟩ w).2,
        deadlineExact ms e) := by
  have hz : ms ≠ 0 := by omega
  have htv := timeval_exact ms h64
  have hselw : ∀ r, deadlineExact ms (Event.select_write fd (ms / 1000) (ms % 1000 * 1000) r) :=
    fun _ => htv
  have hselr : ∀ r, deadlineExact ms (Event.select_read fd (ms / 1000) (ms % 1000 * 1000) r) :=
    fun _ => htv
  refine ⟨by simp [wait_writable, h0, Sys.select_write, issued],
    by simp [wait_readable, h0, Sys.select_read, issued], htv, ?_, ?_, ?_, ?_, ?_, ?_, ?_, ?_⟩
  · intro data
    obtain ⟨evs, h1, h2⟩ := send_loop_events (deadlineExact ms) ⟨fd, ms⟩ data hselw
      (fun _ _ => trivial) (data.length - 0) 0 w rfl
    rw [TcpBase.send_data, issued_of_trace _ _ _ h1]
    exact h2
  · intro old length
    exact recv_data_issued_all (deadlineExact ms) ⟨fd, ms⟩ old length w
      (fun v _ => recv_loop_events (deadlineExact ms) ⟨fd, ms⟩ length hselr
        (fun _ _ _ => trivial) (length - 0) 0 [] v rfl)
  · intro data dest
    by_cases hs : w.select 0 ≤ 0 <;>
      simp [UdpBase.send_data, wait_writable, h0, hs, Sys.select_write, Sys.sendto, issued,
        deadlineExact, htv] <;> omega
  · intro old src
    by_cases hs : w.select 0 ≤ 0 <;> by_cases hr : (w.read 0).ret ≤ 0 <;>
      simp [UdpBase.recv_data, wait_readable, h0, hs, hr, Sys.select_read, Sys.recvfrom, issued,
        deadlineExact, htv] <;> omega
  · intro data dest sn
    by_cases hs : w.select 0 ≤ 0 <;>
      simp [SctpBase.send_data, wait_writable, h0, hs, Sys.select_write, Sys.sctp_sendmsg,
        issued, deadlineExact, htv] <;> omega
  · intro old src sn
    by_cases hs : w.select 0 ≤ 0 <;> by_cases hr : (w.read 0).ret ≤ 0 <;>
      simp [SctpBase.recv_data, wait_readable, h0, hs, hr, Sys.select_read, Sys.sctp_recvmsg,
        issued, deadlineExact, htv] <;> omega
  · intro addr
    simp only [TcpIPv4.connect_to_server, Sys.connect, Sys.fcntl_getfl, Sys.fcntl_setfl,
      Sys.select_write, Sys.getsockopt_so_error, Sys.close, issued]
    by_cases hc : (w.connect 0).1 = 0
    · simp [hz, hc, deadlineExact]
    · by_cases he : (w.connect 0).2 = EINPROGRESS
      · by_cases hs : w.select 0 ≤ 0
        · simp [hz, hc, he, hs, deadlineExact, htv]; omega
        · by_cases hso : (w.so_error 0).getD 0 = 0
          · simp [hz, hc, he, hs, hso, deadlineExact, htv]; omega
          · simp [hz, hc, he, hs, hso, deadlineExact, htv]; omega
      · simp [hz, hc, he, deadlineExact]
  · intro addr
    simp only [TcpIPv6.connect_to_server, Sys.connect, Sys.fcntl_getfl, Sys.fcntl_setfl,
      Sys.select_write, Sys.getsockopt_so_error, Sys.close, issued]
    by_cases hc : (w.connect 0).1 = 0
    · simp [hz, hc, deadlineExact]
    · by_cases he : (w.connect 0).2 = EINPROGRESS
      · by_cases hs : w.select 0 ≤ 0
        · simp [hz, hc, he, hs, deadlineExact, htv]; omega
        · by_cases hso : (w.so_error 0).getD 0 = 0
          · simp [hz, hc, he, hs, hso, deadlineExact, htv]; omega
          · simp [hz, hc, he, hs, hso, deadlineExact, htv]; omega
      · simp [hz, hc, he, deadlineExact]

/-- C17 at a concrete input: timeout 1500 ms gives `tv_sec = 1`, `tv_usec = 500000`. -/
theorem C17_wait_deadline_exact_witness :
    issued (selectWorld 1) (wait_writable 3 1500 (selectWorld 1)).2 =
        [Event.select_write 3 (1500 / 1000) (1500 % 1000 * 1000) ((selectWorld 1).select 0)] ∧
      (1500 / 1000 * 1000000 + 1500 % 1000 * 1000 = 1500 * 1000 ∧
        1500 % 1000 * 1000 < 1000000 ∧ 1500 / 1000 < 2 ^ 63) :=
  ⟨(C17_wait_deadline_exact 3 1500 (selectWorld 1) (by decide) (by decide)).1,
    (C17_wait_deadline_exact 3 1500 (selectWorld 1) (by decide) (by decide)).2.2.1⟩

theorem normalize_loop_none (h : Str) (pos : Nat) (hf : find_lf h pos = none) :
    normalize_loop h pos = h := by
  rw [normalize_loop]
  split
  · rfl
  · rename_i p hp
    rw [hf] at hp
    cases hp

theorem normalize_loop_replace (h : Str) (pos p : Nat) (hf : find_lf h pos = some p)
    (hc : p = 0 ∨ h.getD (p - 1) ' ' ≠ '\r') :
    normalize_loop h pos = normalize_loop (replace_lf h p) (p + 2) := by
  rw [normalize_loop]
  split
  · rename_i hn
    rw [hf] at hn
    cases hn
  · rename_i q hq
    rw [hf] at hq
    cases hq
    rw [if_pos hc]

theorem normalize_loop_keep (h : Str) (pos p : Nat) (hf : find_lf h pos = some p)
    (hc : ¬ (p = 0 ∨ h.getD (p - 1) ' ' ≠ '\r')) :
    normalize_loop h pos = normalize_loop h (p + 2) := by
  rw [normalize_loop]
  split
  · rename_i hn
    rw [hf] at hn
    cases hn
  · rename_i q hq
    rw [hf] at hq
    cases hq
    rw [if_neg hc]

/-- C13: with empty caller headers, for every method, path, host and body,
`HttpImpl::build_and_send` completes and the request it assembles (and hands to
`sendRequest`) is the request line, `Host`, `User-Agent`, `Accept` and
`Connection` lines, a `Content-Length` line with the decimal body length if and
only if the body is non-empty, a blank line and the body; `GET`, `HEAD` and
`DELETE` assemble the text without a `Content-Length` line. -/
theorem C13_request_without_caller_headers {α : Type} (sendRequest : HttpBase → α)
    (self : HttpBase) (method path body : Str) :
    HttpImpl.build_and_send sendRequest self method path [] body =
        some (sendRequest { self with request := wireRequest method path self.host body },
          { self with request := wireRequest method path self.host body }) ∧
      HttpImpl.GET sendRequest self path [] =
        some (sendRequest { self with request := wireRequest "GET".toList path self.host [] },
          { self with request := wireRequest "GET".toList path self.host [] }) ∧
      HttpImpl.HEAD sendRequest self path [] =
        some (sendRequest { self with request := wireRequest "HEAD".toList path self.host [] },
          { self with request := wireRequest "HEAD".toList path self.host [] }) ∧
      HttpImpl.DELETE sendRequest self path [] =
        some (sendRequest { self with request := wireRequest "DELETE".toList path self.host [] },
          { self with request := wireRequest "DELETE".toList path self.host [] }) ∧
      (∀ m : Str, wireRequest m path self.host [] =
        m ++ " ".toList ++ path ++ " HTTP/1.1\r\n".toList ++ "Host: ".toList ++ self.host ++
          "\r\nUser-Agent: FMX-HttpClient/1.0\r\nAccept: */*\r\nConnection: close\r\n\r\n".toList) := by
  have key : ∀ (m b : Str), HttpImpl.build_and_send sendRequest self m path [] b =
      some (sendRequest { self with request := wireRequest m path self.host b },
        { self with request := wireRequest m path self.host b }) := by
    intro m b
    by_cases hb : b = []
    · subst hb
      simp [HttpImpl.build_and_send, wireRequest, List.append_assoc]
    · simp [HttpImpl.build_and_send, wireRequest, hb, to_string, List.append_assoc]
  refine ⟨key method body, key _ [], key _ [], key _ [], ?_⟩
  intro m
  simp [wireRequest, List.append_assoc]

/-- C14 fails on the code.  For the caller headers `"A: 1\r\n\n"` the loop
finds the line feed at offset 5, which follows a carriage return, and moves on
by two, past the line feed at offset 6; the block appended to the request is
`"A: 1\r\n\n\r\n"`, in which that line feed is preceded by a line feed, not by
a carriage return. -/
theorem C14_bare_lf_after_crlf_survives :
    normalize_loop "A: 1\r\n\n".toList 0 = "A: 1\r\n\n".toList ∧
      HttpImpl.header_block "A: 1\r\n\n".toList = some "A: 1\r\n\n\r\n".toList ∧
      hasBareLf "A: 1\r\n\n\r\n".toList = true ∧
      (HttpImpl.GET id { host := "h".toList } "/".toList "A: 1\r\n\n".toList).map
          (fun r => r.2.request) =
        some ("GET / HTTP/1.1\r\nHost: h\r\nUser-Agent: FMX-HttpClient/1.0\r\n".toList ++
          "Accept: */*\r\nConnection: close\r\n".toList ++ "A: 1\r\n\n\r\n".toList ++
          "\r\n".toList) := by
  have hn : normalize_loop "A: 1\r\n\n".toList 0 = "A: 1\r\n\n".toList := by
    rw [normalize_loop_keep _ 0 5 (by decide) (by decide), normalize_loop_none _ 7 (by decide)]
  have hb : HttpImpl.header_block "A: 1\r\n\n".toList = some "A: 1\r\n\n\r\n".toList := by
    unfold HttpImpl.header_block
    rw [hn]
    decide
  refine ⟨hn, hb, by decide, ?_⟩
  unfold HttpImpl.GET HttpImpl.build_and_send
  rw [hb]
  decide

/-- C16 fails on the code.  For the one-character caller headers `"X"` the loop
leaves `h = "X"`; `h.size() - 2` wraps to `2^64 - 1`, which is beyond the end of
`h`, so `h.substr` throws and `build_and_send` does not assemble the request. -/
theorem C16_one_char_headers_fault :
    normalize_loop "X".toList 0 = "X".toList ∧
      (("X".toList.length + 2 ^ 64 - 2) % 2 ^ 64 = 2 ^ 64 - 1) ∧
      substr "X".toList (("X".toList.length + 2 ^ 64 - 2) % 2 ^ 64) = none ∧
      HttpImpl.header_block "X".toList = none ∧
      HttpImpl.GET id { host := "h".toList } "/".toList "X".toList = none := by
  have hn : normalize_loop "X".toList 0 = "X".toList :=
    normalize_loop_none _ 0 (by decide)
  have hb : HttpImpl.header_block "X".toList = none := by
    unfold HttpImpl.header_block
    rw [hn]
    decide
  refine ⟨hn, by decide, by decide, hb, ?_⟩
  unfold HttpImpl.GET HttpImpl.build_and_send
  rw [hb]
  decide

end fmx
